import Mathlib

/-!
Shallow embedding of the Pong scene code (`videogame/scene.py`) and the
parts of the driver contract the claims need.  Pure data is embedded as
Lean structures, one frame of `GameScreen.update_scene` as a function of
the state together with an `Env` record holding the values the frame
reads from the external world (clock ticks, countdown-sound length, the
per-frame random draws).  Sound playback is modelled as the list of
sound effects emitted during the call.
-/

set_option maxHeartbeats 1000000

/-- Sound effects the game can emit during one frame. -/
inductive Sound where
  | countdown
  | paddle
  | score
  deriving DecidableEq

/-- The keys the scenes distinguish (all other pygame key codes behave
like `other`). -/
inductive Key where
  | w
  | s
  | up
  | down
  | escape
  | other
  deriving DecidableEq

/-- Input events: quit, key down, key up; every other pygame event kind is
ignored by the scenes and collapsed to `other`. -/
inductive Event where
  | quit
  | keyDown (k : Key)
  | keyUp (k : Key)
  | other
  deriving DecidableEq

/-- Axis-aligned rectangle with integer coordinates, mirroring
`pygame.Rect`: `(x, y)` is the top-left corner, `w`/`h` the extents. -/
structure Rect where
  x : Int
  y : Int
  w : Int
  h : Int
  deriving DecidableEq

/-- `pygame.Rect.left`. -/
def Rect.left (r : Rect) : Int := r.x

/-- `pygame.Rect.right`. -/
def Rect.right (r : Rect) : Int := r.x + r.w

/-- `pygame.Rect.top`. -/
def Rect.top (r : Rect) : Int := r.y

/-- `pygame.Rect.bottom`. -/
def Rect.bottom (r : Rect) : Int := r.y + r.h

/-- `pygame.Rect.centery` (`y + h // 2`; Python floor division agrees with
`Int` division for the positive divisor 2). -/
def Rect.centery (r : Rect) : Int := r.y + r.h / 2

/-- `pygame.Rect.colliderect`: the rectangles overlap; rectangles that
only touch on an edge do not collide. -/
def Rect.colliderect (a b : Rect) : Bool :=
  decide (a.x < b.x + b.w) && decide (b.x < a.x + a.w) &&
  decide (a.y < b.y + b.h) && decide (b.y < a.y + a.h)

/-- The mutable state of `GameScreen` (`scene.py`, `GameScreen.__init__`).
`width`/`height` hold the `size` constructor argument; the `_screen`,
font and sound handles are external resources and carry no state the
claims mention.  `countdown_start_time` is only written in
`update_scene` before it is first read (Python creates the attribute
there); it is initialised to 0 here. -/
structure GameScreen where
  width : Int
  height : Int
  is_valid : Bool
  ball : Rect
  ball_velocity : Int × Int
  player : Rect
  ai : Rect
  player_move_up : Bool
  player_move_down : Bool
  player_speed : Int
  ai_speed : Int
  ai_delay : Int
  player_score : Nat
  ai_score : Nat
  countdown : Int
  countdown_timer : Int
  countdown_start_time : Int
  countdown_played : Bool
  serve : Bool
  round_delay : Int
  wait_after_score : Bool
  score_time : Int
  deriving DecidableEq

/-- `GameScreen.__init__(screen, background_color, size)`: the freshly
constructed game scene; `ticks` is the `pygame.time.get_ticks()` sample
stored into `_countdown_timer`. -/
def GameScreen.init (size : Int × Int) (ticks : Int) : GameScreen :=
  { width := size.1
    height := size.2
    is_valid := true
    ball := ⟨size.1 / 2 - 15, size.2 / 2 - 15, 30, 30⟩
    ball_velocity := (8, 8)
    player := ⟨30, size.2 / 2 - 80, 20, 180⟩
    ai := ⟨size.1 - 40, size.2 / 2 - 80, 20, 180⟩
    player_move_up := false
    player_move_down := false
    player_speed := 12
    ai_speed := 9
    ai_delay := 0
    player_score := 0
    ai_score := 0
    countdown := 3
    countdown_timer := ticks
    countdown_start_time := 0
    countdown_played := false
    serve := true
    round_delay := 1000
    wait_after_score := false
    score_time := 0 }

/-- The values one `update_scene` call reads from the outside world: the
clock sample (`pygame.time.get_ticks()`, modelled as a single sample per
call), the countdown sound length in ms, the AI jitter
`random.randint(-40, 40)`, and the two `random.choice([-1, 1])` draws of
each of the (at most two) `_reset_ball` calls. -/
structure Env where
  now : Int
  sound_len : Int
  ai_random : Int
  sign_x : Int
  sign_y : Int
  sign_x2 : Int
  sign_y2 : Int
  deriving DecidableEq

/-- The random draws have the shapes `random.choice([-1, 1])` produces. -/
def Env.Valid (e : Env) : Prop :=
  (e.sign_x = 1 ∨ e.sign_x = -1) ∧ (e.sign_y = 1 ∨ e.sign_y = -1) ∧
  (e.sign_x2 = 1 ∨ e.sign_x2 = -1) ∧ (e.sign_y2 = 1 ∨ e.sign_y2 = -1)

instance (e : Env) : Decidable e.Valid := by
  unfold Env.Valid
  infer_instance

/-- `GameScreen._reset_ball`: recenter the ball, redraw its velocity with
magnitude 8 and the two random signs, and enter the post-score wait. -/
def GameScreen.reset_ball (sx sy now : Int) (g : GameScreen) : GameScreen :=
  { g with
    ball := { g.ball with x := g.width / 2 - 15, y := g.height / 2 - 15 }
    ball_velocity := (8 * sx, 8 * sy)
    wait_after_score := true
    score_time := now }

/-- `GameScreen._reset_player`. -/
def GameScreen.reset_player (g : GameScreen) : GameScreen :=
  { g with player := { g.player with x := 30, y := g.height / 2 - 80 } }

/-- `GameScreen._reset_ai`. -/
def GameScreen.reset_ai (g : GameScreen) : GameScreen :=
  { g with ai := { g.ai with x := g.width - 40, y := g.height / 2 - 80 } }

/-- `update_scene` lines 203-208: ball/paddle collision, player paddle
checked first, `elif` for the AI paddle, horizontal velocity sign flip
and the paddle-hit sound on contact. -/
def collisionPhase (g : GameScreen) : GameScreen × List Sound :=
  if g.ball.colliderect g.player then
    ({ g with ball_velocity := (-g.ball_velocity.1, g.ball_velocity.2) }, [Sound.paddle])
  else if g.ball.colliderect g.ai then
    ({ g with ball_velocity := (-g.ball_velocity.1, g.ball_velocity.2) }, [Sound.paddle])
  else (g, [])

/-- `update_scene` lines 210-211: advance the ball by its velocity. -/
def moveBallPhase (g : GameScreen) : GameScreen :=
  { g with ball := { g.ball with x := g.ball.x + g.ball_velocity.1,
                                 y := g.ball.y + g.ball_velocity.2 } }

/-- `update_scene` lines 213-225: first scoring check; on a score play the
score sound, increment the scorer, reset ball and both paddles. -/
def scorePhase1 (e : Env) (g : GameScreen) : GameScreen × List Sound :=
  if g.ball.right < 0 then
    ((({ g with ai_score := g.ai_score + 1 }).reset_ball
        e.sign_x e.sign_y e.now).reset_player.reset_ai, [Sound.score])
  else if g.ball.left > g.width then
    ((({ g with player_score := g.player_score + 1 }).reset_ball
        e.sign_x e.sign_y e.now).reset_player.reset_ai, [Sound.score])
  else (g, [])

/-- `update_scene` lines 228-230: top/bottom wall bounce, vertical
velocity sign flip, reusing the paddle-hit sound. -/
def wallPhase (g : GameScreen) : GameScreen × List Sound :=
  if g.ball.bottom ≥ g.height ∨ g.ball.top ≤ 0 then
    ({ g with ball_velocity := (g.ball_velocity.1, -g.ball_velocity.2) }, [Sound.paddle])
  else (g, [])

/-- `update_scene` lines 233-236: player paddle movement while the intent
flags are set; the bound test precedes the move. -/
def playerMovePhase (g : GameScreen) : GameScreen :=
  let g1 := if g.player_move_up ∧ 0 < g.player.top then
      { g with player := { g.player with y := g.player.y - g.player_speed } } else g
  if g1.player_move_down ∧ g1.player.bottom < g1.height then
      { g1 with player := { g1.player with y := g1.player.y + g1.player_speed } } else g1

/-- `update_scene` lines 239-241: the (otherwise unused) AI delay counter. -/
def aiDelayPhase (g : GameScreen) : GameScreen :=
  let g1 := { g with ai_delay := g.ai_delay + 1 }
  if g1.ai_delay > 5 then { g1 with ai_delay := 0 } else g1

/-- `update_scene` lines 243-256: AI paddle movement with jitter `r` and
the 60 px dead zone.  The upward test compares `ball.centery + r`, the
downward test compares `ball.y + r` (the ball's top edge), as in the
source. -/
def aiMovePhase (r : Int) (g : GameScreen) : GameScreen :=
  if g.ball.centery + r < g.ai.centery - 60 ∧ 0 < g.ai.top then
    { g with ai := { g.ai with y := g.ai.y - g.ai_speed } }
  else if g.ball.y + r > g.ai.centery + 60 ∧ g.ai.bottom < g.height then
    { g with ai := { g.ai with y := g.ai.y + g.ai_speed } }
  else g

/-- `update_scene` lines 259-264: second scoring check; increments and
resets the ball only (no sound, no paddle resets). -/
def scorePhase2 (e : Env) (g : GameScreen) : GameScreen :=
  if g.ball.right < 0 then
    ({ g with ai_score := g.ai_score + 1 }).reset_ball e.sign_x2 e.sign_y2 e.now
  else if g.ball.left > g.width then
    ({ g with player_score := g.player_score + 1 }).reset_ball e.sign_x2 e.sign_y2 e.now
  else g

/-- `update_scene` lines 267-268: the win check. -/
def winCheckPhase (g : GameScreen) : GameScreen :=
  if 3 ≤ g.player_score ∨ 3 ≤ g.ai_score then { g with is_valid := false } else g

/-- The whole physics part of `update_scene` (everything after the two
timing gates), in source order. -/
def rallyPhase (e : Env) (g : GameScreen) : GameScreen × List Sound :=
  let p1 := collisionPhase g
  let g2 := moveBallPhase p1.1
  let p3 := scorePhase1 e g2
  let p4 := wallPhase p3.1
  let g5 := playerMovePhase p4.1
  let g6 := aiDelayPhase g5
  let g7 := aiMovePhase e.ai_random g6
  let g8 := scorePhase2 e g7
  (winCheckPhase g8, p1.2 ++ p3.2 ++ p4.2)

/-- `update_scene` lines 193-200 and onward: the post-score delay gate
followed by the physics part.  Returns early (keeping the sounds `snds`
the serve gate already emitted) until `round_delay` ms have elapsed
since the score, then clears the wait, re-enters `Serving`, resets the
countdown-played flag and continues into the physics part. -/
def updateAfterServe (e : Env) (g : GameScreen) (snds : List Sound) :
    GameScreen × List Sound :=
  if g.wait_after_score then
    if e.now - g.score_time < g.round_delay then (g, snds)
    else
      let g1 := { g with wait_after_score := false, serve := true,
                         countdown_played := false }
      let p := rallyPhase e g1
      (p.1, snds ++ p.2)
  else
    let p := rallyPhase e g
    (p.1, snds ++ p.2)

/-- `GameScreen.update_scene`: one frame.  Lines 178-190 are the serve
countdown gate: on entry to `Serving` the countdown sound is played once
and its start time stored; the scene returns early until the sound
length has elapsed, then clears `serve` and falls through to the rest of
the body (`updateAfterServe`).  Returns the new state and the sound
effects played during the call. -/
def GameScreen.update_scene (e : Env) (g : GameScreen) : GameScreen × List Sound :=
  if g.serve then
    if !g.countdown_played then
      let g1 := { g with countdown_start_time := e.now, countdown_played := true }
      if e.now - g1.countdown_start_time < e.sound_len then (g1, [Sound.countdown])
      else updateAfterServe e { g1 with serve := false } [Sound.countdown]
    else
      if e.now - g.countdown_start_time < e.sound_len then (g, [])
      else updateAfterServe e { g with serve := false } []
  else updateAfterServe e g []

/-- `GameScreen.process_event`: key-down sets the movement-intent flags,
key-up clears them.  The override does not call the base handler, so no
other event has any effect. -/
def GameScreen.process_event (ev : Event) (g : GameScreen) : GameScreen :=
  match ev with
  | Event.keyDown k =>
      let g1 := if k = Key.w ∨ k = Key.up then { g with player_move_up := true } else g
      if k = Key.s ∨ k = Key.down then { g1 with player_move_down := true } else g1
  | Event.keyUp k =>
      let g1 := if k = Key.w ∨ k = Key.up then { g with player_move_up := false } else g
      if k = Key.s ∨ k = Key.down then { g1 with player_move_down := false } else g1
  | _ => g

/-- The state of the base `Scene` class that the claims mention: the
validity flag and the soundtrack path (`""` models a falsy soundtrack). -/
structure Scene where
  is_valid : Bool
  soundtrack : String
  frame_rate : Int
  deriving DecidableEq

/-- `Scene.process_event`: a quit event or an escape key-down immediately
invalidates the scene. -/
def Scene.process_event (ev : Event) (sc : Scene) : Scene :=
  let sc1 := match ev with
    | Event.quit => { sc with is_valid := false }
    | _ => sc
  match ev with
  | Event.keyDown Key.escape => { sc1 with is_valid := false }
  | _ => sc1

/-- Audio-subsystem calls `Scene.start_scene` can make. -/
inductive MusicAction where
  | load (track : String)
  | setVolume
  | playLoop
  deriving DecidableEq

/-- `Scene.start_scene`: with a falsy soundtrack, do nothing.  Otherwise
load the track and set the volume; a `pygame.error` there (modelled by
`loadOk = false`) is printed and re-raised as a fatal `SystemExit`
(`Except.error`), never caught or retried; on success the track is
played looped. -/
def Scene.start_scene (loadOk : Bool) (sc : Scene) : Except String (List MusicAction) :=
  if sc.soundtrack = "" then Except.ok []
  else if loadOk then
    Except.ok [MusicAction.load sc.soundtrack, MusicAction.setVolume, MusicAction.playLoop]
  else Except.error "broken!!"

/-- Modelled from the spec wording of claim C6 (not from the source): the
AI movement rule using one jittered target, the ball's vertical center
plus the jitter, for both directions.  Kept only to compare with
`aiMovePhase`. -/
def aiMoveSpec (r : Int) (g : GameScreen) : GameScreen :=
  if g.ball.centery + r < g.ai.centery - 60 ∧ 0 < g.ai.top then
    { g with ai := { g.ai with y := g.ai.y - g.ai_speed } }
  else if g.ball.centery + r > g.ai.centery + 60 ∧ g.ai.bottom < g.height then
    { g with ai := { g.ai with y := g.ai.y + g.ai_speed } }
  else g

/-- Both components of the ball velocity are exactly ±8. -/
def VelOK (g : GameScreen) : Prop :=
  (g.ball_velocity.1 = 8 ∨ g.ball_velocity.1 = -8) ∧
  (g.ball_velocity.2 = 8 ∨ g.ball_velocity.2 = -8)

instance (g : GameScreen) : Decidable (VelOK g) := by
  unfold VelOK
  infer_instance

/-- Equality of all `GameScreen` fields except the four the timing gates
may write (`countdown_start_time`, `countdown_played`, `serve`,
`wait_after_score`). -/
def CoreEq (a b : GameScreen) : Prop :=
  a.width = b.width ∧ a.height = b.height ∧ a.is_valid = b.is_valid ∧
  a.ball = b.ball ∧ a.ball_velocity = b.ball_velocity ∧
  a.player = b.player ∧ a.ai = b.ai ∧
  a.player_move_up = b.player_move_up ∧ a.player_move_down = b.player_move_down ∧
  a.player_speed = b.player_speed ∧ a.ai_speed = b.ai_speed ∧
  a.ai_delay = b.ai_delay ∧
  a.player_score = b.player_score ∧ a.ai_score = b.ai_score ∧
  a.countdown = b.countdown ∧ a.countdown_timer = b.countdown_timer ∧
  a.round_delay = b.round_delay ∧ a.score_time = b.score_time

/-- One step the driver can take on a `GameScreen`: deliver an event, or
call `update_scene` — the latter only while the scene is valid, per the
spec's driver invariant that an invalid scene is never updated again. -/
def DStep (a b : GameScreen) : Prop :=
  (∃ ev, b = GameScreen.process_event ev a) ∨
  (a.is_valid = true ∧ ∃ e : Env, e.Valid ∧ b = (GameScreen.update_scene e a).1)

/-- The `GameScreen` states reachable from a fresh construction under the
driver discipline (`update_scene` only while valid, events any time). -/
inductive Reach (size : Int × Int) (ticks : Int) : GameScreen → Prop where
  | init : Reach size ticks (GameScreen.init size ticks)
  | update {g : GameScreen} (e : Env) (hv : e.Valid) (hval : g.is_valid = true)
      (h : Reach size ticks g) : Reach size ticks (GameScreen.update_scene e g).1
  | event {g : GameScreen} (ev : Event) (h : Reach size ticks g) :
      Reach size ticks (GameScreen.process_event ev g)

/-- The geometric invariant behind the amended claim C3: fixed speeds and
extents, ±8 velocity, paddles within the surface band widened by
`speed - 1`, and the ball's vertical band widened by 8, with the
velocity pointing back inside when the ball sits on or past an edge. -/
def BoundsInv (g : GameScreen) : Prop :=
  200 ≤ g.height ∧ 0 ≤ g.width ∧
  g.player_speed = 12 ∧ g.ai_speed = 9 ∧
  g.player.h = 180 ∧ g.ai.h = 180 ∧ g.ball.h = 30 ∧ g.ball.w = 30 ∧
  VelOK g ∧
  -11 ≤ g.player.y ∧ g.player.y ≤ g.height - 180 + 11 ∧
  -8 ≤ g.ai.y ∧ g.ai.y ≤ g.height - 180 + 8 ∧
  -8 < g.ball.y ∧ g.ball.y + 30 ≤ g.height + 8 ∧
  (g.ball.y ≤ 0 → g.ball_velocity.2 = 8) ∧
  (g.height + 1 ≤ g.ball.y + 30 → g.ball_velocity.2 = -8)

instance (g : GameScreen) : Decidable (BoundsInv g) := by
  unfold BoundsInv
  infer_instance

/-! ### Concrete states used for evaluation -/

/-- A generic environment sample: clock at 5000 ms, a 1000 ms countdown
sound, no AI jitter, all random signs positive. -/
def envC : Env :=
  { now := 5000, sound_len := 1000, ai_random := 0,
    sign_x := 1, sign_y := 1, sign_x2 := 1, sign_y2 := 1 }

/-- Environment with clock 0 and a zero-length countdown sound. -/
def envW1 : Env :=
  { now := 0, sound_len := 0, ai_random := 0,
    sign_x := 1, sign_y := 1, sign_x2 := 1, sign_y2 := 1 }

/-- Environment with clock 2000 ms and a zero-length countdown sound. -/
def envW2 : Env :=
  { now := 2000, sound_len := 0, ai_random := 0,
    sign_x := 1, sign_y := 1, sign_x2 := 1, sign_y2 := 1 }

/-- The game scene as `PongGame` constructs it: a 750 by 750 surface. -/
def gameStart : GameScreen := GameScreen.init (750, 750) 0

/-- A state in `Rallying` with the AI at match point and the ball about
to exit past the player's side. -/
def gameC1 : GameScreen :=
  { gameStart with
    serve := false
    ai_score := 2
    ball := ⟨-50, 360, 30, 30⟩
    ball_velocity := (-8, 8) }

/-- An invalidated game state. -/
def gameDead : GameScreen := { gameStart with is_valid := false }

/-- A state in `Rallying` with the player's paddle near the top edge and
upward movement intent set. -/
def gameC3 : GameScreen :=
  { gameStart with
    serve := false
    player := ⟨30, 5, 20, 180⟩
    player_move_up := true }

/-- A state in `Serving` whose countdown has already been played and has
elapsed by `envC.now`. -/
def gameC4 : GameScreen := { gameStart with countdown_played := true }

/-- A state in `Rallying` with the ball placed so that the jittered
ball-center target lies just past the dead zone below the AI paddle's
center while the ball's top edge does not. -/
def gameC6 : GameScreen :=
  { gameStart with
    serve := false
    ball := ⟨360, 432, 30, 30⟩ }

/-- A state in `Rallying` in which the ball overlaps both paddles at
once. -/
def gameC7 : GameScreen :=
  { gameStart with
    serve := false
    ball := ⟨35, 360, 30, 30⟩
    ai := ⟨40, 295, 20, 180⟩ }

/-- A scene reached from a fresh `GameScreen` on a surface of width
`-100` by two disciplined `update_scene` calls; the degenerate width
makes the AI score twice per physics frame, so this state has
`ai_score = 4` and is invalid. -/
def gameWin : GameScreen :=
  (GameScreen.update_scene envW2
    (GameScreen.update_scene envW1 (GameScreen.init (-100, 750) 0)).1).1

/-! ### Frame lemmas: fields each phase leaves unchanged -/

@[simp] theorem collisionPhase_frame (g : GameScreen) :
    (collisionPhase g).1.width = g.width ∧
    (collisionPhase g).1.height = g.height ∧
    (collisionPhase g).1.is_valid = g.is_valid ∧
    (collisionPhase g).1.ball = g.ball ∧
    (collisionPhase g).1.ball_velocity.2 = g.ball_velocity.2 ∧
    (collisionPhase g).1.player = g.player ∧
    (collisionPhase g).1.ai = g.ai ∧
    (collisionPhase g).1.player_move_up = g.player_move_up ∧
    (collisionPhase g).1.player_move_down = g.player_move_down ∧
    (collisionPhase g).1.player_speed = g.player_speed ∧
    (collisionPhase g).1.ai_speed = g.ai_speed ∧
    (collisionPhase g).1.ai_delay = g.ai_delay ∧
    (collisionPhase g).1.player_score = g.player_score ∧
    (collisionPhase g).1.ai_score = g.ai_score ∧
    (collisionPhase g).1.countdown_played = g.countdown_played ∧
    (collisionPhase g).1.serve = g.serve ∧
    (collisionPhase g).1.round_delay = g.round_delay ∧
    (collisionPhase g).1.wait_after_score = g.wait_after_score ∧
    (collisionPhase g).1.score_time = g.score_time := by
  unfold collisionPhase
  split_ifs <;> simp

theorem collisionPhase_vx (g : GameScreen) :
    (collisionPhase g).1.ball_velocity.1 = g.ball_velocity.1 ∨
    (collisionPhase g).1.ball_velocity.1 = -g.ball_velocity.1 := by
  unfold collisionPhase
  split_ifs <;> simp

theorem collisionPhase_none (g : GameScreen)
    (h1 : g.ball.colliderect g.player = false) (h2 : g.ball.colliderect g.ai = false) :
    collisionPhase g = (g, []) := by
  unfold collisionPhase
  simp [h1, h2]

theorem collisionPhase_hit_player (g : GameScreen)
    (h1 : g.ball.colliderect g.player = true) :
    collisionPhase g =
      ({ g with ball_velocity := (-g.ball_velocity.1, g.ball_velocity.2) }, [Sound.paddle]) := by
  unfold collisionPhase
  simp [h1]

theorem collisionPhase_hit_ai (g : GameScreen)
    (h1 : g.ball.colliderect g.player = false) (h2 : g.ball.colliderect g.ai = true) :
    collisionPhase g =
      ({ g with ball_velocity := (-g.ball_velocity.1, g.ball_velocity.2) }, [Sound.paddle]) := by
  unfold collisionPhase
  simp [h1, h2]

theorem collisionPhase_sounds (g : GameScreen) :
    (collisionPhase g).2 = [] ∨ (collisionPhase g).2 = [Sound.paddle] := by
  unfold collisionPhase
  split_ifs <;> simp

@[simp] theorem moveBallPhase_frame (g : GameScreen) :
    (moveBallPhase g).width = g.width ∧
    (moveBallPhase g).height = g.height ∧
    (moveBallPhase g).is_valid = g.is_valid ∧
    (moveBallPhase g).ball.x = g.ball.x + g.ball_velocity.1 ∧
    (moveBallPhase g).ball.y = g.ball.y + g.ball_velocity.2 ∧
    (moveBallPhase g).ball.w = g.ball.w ∧
    (moveBallPhase g).ball.h = g.ball.h ∧
    (moveBallPhase g).ball_velocity = g.ball_velocity ∧
    (moveBallPhase g).player = g.player ∧
    (moveBallPhase g).ai = g.ai ∧
    (moveBallPhase g).player_move_up = g.player_move_up ∧
    (moveBallPhase g).player_move_down = g.player_move_down ∧
    (moveBallPhase g).player_speed = g.player_speed ∧
    (moveBallPhase g).ai_speed = g.ai_speed ∧
    (moveBallPhase g).ai_delay = g.ai_delay ∧
    (moveBallPhase g).player_score = g.player_score ∧
    (moveBallPhase g).ai_score = g.ai_score ∧
    (moveBallPhase g).countdown_played = g.countdown_played ∧
    (moveBallPhase g).serve = g.serve ∧
    (moveBallPhase g).round_delay = g.round_delay ∧
    (moveBallPhase g).wait_after_score = g.wait_after_score ∧
    (moveBallPhase g).score_time = g.score_time := by
  unfold moveBallPhase
  simp

@[simp] theorem scorePhase1_frame (e : Env) (g : GameScreen) :
    (scorePhase1 e g).1.width = g.width ∧
    (scorePhase1 e g).1.height = g.height ∧
    (scorePhase1 e g).1.is_valid = g.is_valid ∧
    (scorePhase1 e g).1.ball.w = g.ball.w ∧
    (scorePhase1 e g).1.ball.h = g.ball.h ∧
    (scorePhase1 e g).1.player.w = g.player.w ∧
    (scorePhase1 e g).1.player.h = g.player.h ∧
    (scorePhase1 e g).1.ai.w = g.ai.w ∧
    (scorePhase1 e g).1.ai.h = g.ai.h ∧
    (scorePhase1 e g).1.player_move_up = g.player_move_up ∧
    (scorePhase1 e g).1.player_move_down = g.player_move_down ∧
    (scorePhase1 e g).1.player_speed = g.player_speed ∧
    (scorePhase1 e g).1.ai_speed = g.ai_speed ∧
    (scorePhase1 e g).1.ai_delay = g.ai_delay ∧
    (scorePhase1 e g).1.countdown_played = g.countdown_played ∧
    (scorePhase1 e g).1.serve = g.serve ∧
    (scorePhase1 e g).1.round_delay = g.round_delay := by
  unfold scorePhase1 GameScreen.reset_ball GameScreen.reset_player GameScreen.reset_ai
  split_ifs <;> simp

theorem scorePhase1_ai_scores (e : Env) (g : GameScreen) (h : g.ball.right < 0) :
    (scorePhase1 e g).1.ai_score = g.ai_score + 1 ∧
    (scorePhase1 e g).1.player_score = g.player_score ∧
    (scorePhase1 e g).1.ball.x = g.width / 2 - 15 ∧
    (scorePhase1 e g).1.ball.y = g.height / 2 - 15 ∧
    (scorePhase1 e g).1.ball_velocity = (8 * e.sign_x, 8 * e.sign_y) ∧
    (scorePhase1 e g).1.player.x = 30 ∧
    (scorePhase1 e g).1.player.y = g.height / 2 - 80 ∧
    (scorePhase1 e g).1.ai.x = g.width - 40 ∧
    (scorePhase1 e g).1.ai.y = g.height / 2 - 80 ∧
    (scorePhase1 e g).1.wait_after_score = true ∧
    (scorePhase1 e g).1.score_time = e.now ∧
    (scorePhase1 e g).2 = [Sound.score] := by
  unfold scorePhase1 GameScreen.reset_ball GameScreen.reset_player GameScreen.reset_ai
  simp [h]

theorem scorePhase1_player_scores (e : Env) (g : GameScreen)
    (h1 : ¬ g.ball.right < 0) (h2 : g.ball.left > g.width) :
    (scorePhase1 e g).1.player_score = g.player_score + 1 ∧
    (scorePhase1 e g).1.ai_score = g.ai_score ∧
    (scorePhase1 e g).1.ball.x = g.width / 2 - 15 ∧
    (scorePhase1 e g).1.ball.y = g.height / 2 - 15 ∧
    (scorePhase1 e g).1.ball_velocity = (8 * e.sign_x, 8 * e.sign_y) ∧
    (scorePhase1 e g).1.player.x = 30 ∧
    (scorePhase1 e g).1.player.y = g.height / 2 - 80 ∧
    (scorePhase1 e g).1.ai.x = g.width - 40 ∧
    (scorePhase1 e g).1.ai.y = g.height / 2 - 80 ∧
    (scorePhase1 e g).1.wait_after_score = true ∧
    (scorePhase1 e g).1.score_time = e.now ∧
    (scorePhase1 e g).2 = [Sound.score] := by
  unfold scorePhase1 GameScreen.reset_ball GameScreen.reset_player GameScreen.reset_ai
  simp [h1, h2]

theorem scorePhase1_none (e : Env) (g : GameScreen)
    (h1 : ¬ g.ball.right < 0) (h2 : ¬ g.ball.left > g.width) :
    scorePhase1 e g = (g, []) := by
  unfold scorePhase1
  simp [h1, h2]

@[simp] theorem wallPhase_frame (g : GameScreen) :
    (wallPhase g).1.width = g.width ∧
    (wallPhase g).1.height = g.height ∧
    (wallPhase g).1.is_valid = g.is_valid ∧
    (wallPhase g).1.ball = g.ball ∧
    (wallPhase g).1.ball_velocity.1 = g.ball_velocity.1 ∧
    (wallPhase g).1.player = g.player ∧
    (wallPhase g).1.ai = g.ai ∧
    (wallPhase g).1.player_move_up = g.player_move_up ∧
    (wallPhase g).1.player_move_down = g.player_move_down ∧
    (wallPhase g).1.player_speed = g.player_speed ∧
    (wallPhase g).1.ai_speed = g.ai_speed ∧
    (wallPhase g).1.ai_delay = g.ai_delay ∧
    (wallPhase g).1.player_score = g.player_score ∧
    (wallPhase g).1.ai_score = g.ai_score ∧
    (wallPhase g).1.countdown_played = g.countdown_played ∧
    (wallPhase g).1.serve = g.serve ∧
    (wallPhase g).1.round_delay = g.round_delay ∧
    (wallPhase g).1.wait_after_score = g.wait_after_score ∧
    (wallPhase g).1.score_time = g.score_time := by
  unfold wallPhase
  split_ifs <;> simp

theorem wallPhase_vy (g : GameScreen) :
    (wallPhase g).1.ball_velocity.2 = g.ball_velocity.2 ∨
    (wallPhase g).1.ball_velocity.2 = -g.ball_velocity.2 := by
  unfold wallPhase
  split_ifs <;> simp

theorem wallPhase_bounce (g : GameScreen)
    (h : g.ball.bottom ≥ g.height ∨ g.ball.top ≤ 0) :
    wallPhase g =
      ({ g with ball_velocity := (g.ball_velocity.1, -g.ball_velocity.2) }, [Sound.paddle]) := by
  unfold wallPhase
  simp [h]

theorem wallPhase_none (g : GameScreen)
    (h : ¬ (g.ball.bottom ≥ g.height ∨ g.ball.top ≤ 0)) :
    wallPhase g = (g, []) := by
  unfold wallPhase
  simp [h]

theorem wallPhase_sounds (g : GameScreen) :
    (wallPhase g).2 = [] ∨ (wallPhase g).2 = [Sound.paddle] := by
  unfold wallPhase
  split_ifs <;> simp

@[simp] theorem playerMovePhase_frame (g : GameScreen) :
    (playerMovePhase g).width = g.width ∧
    (playerMovePhase g).height = g.height ∧
    (playerMovePhase g).is_valid = g.is_valid ∧
    (playerMovePhase g).ball = g.ball ∧
    (playerMovePhase g).ball_velocity = g.ball_velocity ∧
    (playerMovePhase g).player.x = g.player.x ∧
    (playerMovePhase g).player.w = g.player.w ∧
    (playerMovePhase g).player.h = g.player.h ∧
    (playerMovePhase g).ai = g.ai ∧
    (playerMovePhase g).player_move_up = g.player_move_up ∧
    (playerMovePhase g).player_move_down = g.player_move_down ∧
    (playerMovePhase g).player_speed = g.player_speed ∧
    (playerMovePhase g).ai_speed = g.ai_speed ∧
    (playerMovePhase g).ai_delay = g.ai_delay ∧
    (playerMovePhase g).player_score = g.player_score ∧
    (playerMovePhase g).ai_score = g.ai_score ∧
    (playerMovePhase g).countdown_played = g.countdown_played ∧
    (playerMovePhase g).serve = g.serve ∧
    (playerMovePhase g).round_delay = g.round_delay ∧
    (playerMovePhase g).wait_after_score = g.wait_after_score ∧
    (playerMovePhase g).score_time = g.score_time := by
  simp only [playerMovePhase]
  split_ifs <;> simp

theorem playerMovePhase_still (g : GameScreen)
    (h1 : g.player_move_up = false) (h2 : g.player_move_down = false) :
    playerMovePhase g = g := by
  simp only [playerMovePhase]
  split_ifs <;> simp_all

@[simp] theorem aiDelayPhase_frame (g : GameScreen) :
    (aiDelayPhase g).width = g.width ∧
    (aiDelayPhase g).height = g.height ∧
    (aiDelayPhase g).is_valid = g.is_valid ∧
    (aiDelayPhase g).ball = g.ball ∧
    (aiDelayPhase g).ball_velocity = g.ball_velocity ∧
    (aiDelayPhase g).player = g.player ∧
    (aiDelayPhase g).ai = g.ai ∧
    (aiDelayPhase g).player_move_up = g.player_move_up ∧
    (aiDelayPhase g).player_move_down = g.player_move_down ∧
    (aiDelayPhase g).player_speed = g.player_speed ∧
    (aiDelayPhase g).ai_speed = g.ai_speed ∧
    (aiDelayPhase g).player_score = g.player_score ∧
    (aiDelayPhase g).ai_score = g.ai_score ∧
    (aiDelayPhase g).countdown_played = g.countdown_played ∧
    (aiDelayPhase g).serve = g.serve ∧
    (aiDelayPhase g).round_delay = g.round_delay ∧
    (aiDelayPhase g).wait_after_score = g.wait_after_score ∧
    (aiDelayPhase g).score_time = g.score_time := by
  simp only [aiDelayPhase]
  split_ifs <;> simp

@[simp] theorem aiMovePhase_frame (r : Int) (g : GameScreen) :
    (aiMovePhase r g).width = g.width ∧
    (aiMovePhase r g).height = g.height ∧
    (aiMovePhase r g).is_valid = g.is_valid ∧
    (aiMovePhase r g).ball = g.ball ∧
    (aiMovePhase r g).ball_velocity = g.ball_velocity ∧
    (aiMovePhase r g).player = g.player ∧
    (aiMovePhase r g).ai.x = g.ai.x ∧
    (aiMovePhase r g).ai.w = g.ai.w ∧
    (aiMovePhase r g).ai.h = g.ai.h ∧
    (aiMovePhase r g).player_move_up = g.player_move_up ∧
    (aiMovePhase r g).player_move_down = g.player_move_down ∧
    (aiMovePhase r g).player_speed = g.player_speed ∧
    (aiMovePhase r g).ai_speed = g.ai_speed ∧
    (aiMovePhase r g).ai_delay = g.ai_delay ∧
    (aiMovePhase r g).player_score = g.player_score ∧
    (aiMovePhase r g).ai_score = g.ai_score ∧
    (aiMovePhase r g).countdown_played = g.countdown_played ∧
    (aiMovePhase r g).serve = g.serve ∧
    (aiMovePhase r g).round_delay = g.round_delay ∧
    (aiMovePhase r g).wait_after_score = g.wait_after_score ∧
    (aiMovePhase r g).score_time = g.score_time := by
  unfold aiMovePhase
  split_ifs <;> simp

theorem aiMovePhase_y (r : Int) (g : GameScreen) :
    (aiMovePhase r g).ai.y =
      if g.ball.centery + r < g.ai.centery - 60 ∧ 0 < g.ai.top then g.ai.y - g.ai_speed
      else if g.ball.y + r > g.ai.centery + 60 ∧ g.ai.bottom < g.height then g.ai.y + g.ai_speed
      else g.ai.y := by
  unfold aiMovePhase
  split_ifs <;> simp

@[simp] theorem scorePhase2_frame (e : Env) (g : GameScreen) :
    (scorePhase2 e g).width = g.width ∧
    (scorePhase2 e g).height = g.height ∧
    (scorePhase2 e g).is_valid = g.is_valid ∧
    (scorePhase2 e g).ball.w = g.ball.w ∧
    (scorePhase2 e g).ball.h = g.ball.h ∧
    (scorePhase2 e g).player = g.player ∧
    (scorePhase2 e g).ai = g.ai ∧
    (scorePhase2 e g).player_move_up = g.player_move_up ∧
    (scorePhase2 e g).player_move_down = g.player_move_down ∧
    (scorePhase2 e g).player_speed = g.player_speed ∧
    (scorePhase2 e g).ai_speed = g.ai_speed ∧
    (scorePhase2 e g).ai_delay = g.ai_delay ∧
    (scorePhase2 e g).countdown_played = g.countdown_played ∧
    (scorePhase2 e g).serve = g.serve ∧
    (scorePhase2 e g).round_delay = g.round_delay := by
  unfold scorePhase2 GameScreen.reset_ball
  split_ifs <;> simp

theorem scorePhase2_none (e : Env) (g : GameScreen)
    (h1 : ¬ g.ball.right < 0) (h2 : ¬ g.ball.left > g.width) :
    scorePhase2 e g = g := by
  unfold scorePhase2
  simp [h1, h2]

theorem scorePhase2_ai_scores (e : Env) (g : GameScreen) (h : g.ball.right < 0) :
    (scorePhase2 e g).ai_score = g.ai_score + 1 ∧
    (scorePhase2 e g).player_score = g.player_score ∧
    (scorePhase2 e g).ball.x = g.width / 2 - 15 ∧
    (scorePhase2 e g).ball.y = g.height / 2 - 15 ∧
    (scorePhase2 e g).ball_velocity = (8 * e.sign_x2, 8 * e.sign_y2) ∧
    (scorePhase2 e g).wait_after_score = true ∧
    (scorePhase2 e g).score_time = e.now := by
  unfold scorePhase2 GameScreen.reset_ball
  simp [h]

theorem scorePhase2_player_scores (e : Env) (g : GameScreen)
    (h1 : ¬ g.ball.right < 0) (h2 : g.ball.left > g.width) :
    (scorePhase2 e g).player_score = g.player_score + 1 ∧
    (scorePhase2 e g).ai_score = g.ai_score ∧
    (scorePhase2 e g).ball.x = g.width / 2 - 15 ∧
    (scorePhase2 e g).ball.y = g.height / 2 - 15 ∧
    (scorePhase2 e g).ball_velocity = (8 * e.sign_x2, 8 * e.sign_y2) ∧
    (scorePhase2 e g).wait_after_score = true ∧
    (scorePhase2 e g).score_time = e.now := by
  unfold scorePhase2 GameScreen.reset_ball
  simp [h1, h2]

@[simp] theorem winCheckPhase_frame (g : GameScreen) :
    (winCheckPhase g).width = g.width ∧
    (winCheckPhase g).height = g.height ∧
    (winCheckPhase g).ball = g.ball ∧
    (winCheckPhase g).ball_velocity = g.ball_velocity ∧
    (winCheckPhase g).player = g.player ∧
    (winCheckPhase g).ai = g.ai ∧
    (winCheckPhase g).player_move_up = g.player_move_up ∧
    (winCheckPhase g).player_move_down = g.player_move_down ∧
    (winCheckPhase g).player_speed = g.player_speed ∧
    (winCheckPhase g).ai_speed = g.ai_speed ∧
    (winCheckPhase g).ai_delay = g.ai_delay ∧
    (winCheckPhase g).player_score = g.player_score ∧
    (winCheckPhase g).ai_score = g.ai_score ∧
    (winCheckPhase g).countdown_played = g.countdown_played ∧
    (winCheckPhase g).serve = g.serve ∧
    (winCheckPhase g).round_delay = g.round_delay ∧
    (winCheckPhase g).wait_after_score = g.wait_after_score ∧
    (winCheckPhase g).score_time = g.score_time := by
  unfold winCheckPhase
  split_ifs <;> simp

theorem winCheckPhase_invalid (g : GameScreen)
    (h : 3 ≤ g.player_score ∨ 3 ≤ g.ai_score) :
    (winCheckPhase g).is_valid = false := by
  unfold winCheckPhase
  simp [h]

theorem winCheckPhase_keep (g : GameScreen)
    (h : ¬ (3 ≤ g.player_score ∨ 3 ≤ g.ai_score)) :
    winCheckPhase g = g := by
  unfold winCheckPhase
  simp [h]

theorem winCheckPhase_valid_of_score (g : GameScreen)
    (h : 3 ≤ (winCheckPhase g).player_score ∨ 3 ≤ (winCheckPhase g).ai_score) :
    (winCheckPhase g).is_valid = false := by
  refine winCheckPhase_invalid g ?h
  simpa using h

/-! ### Characterizations of the `update_scene` timing gates -/

theorem update_serving_entry (e : Env) (g : GameScreen)
    (hs : g.serve = true) (hp : g.countdown_played = false) (hl : 0 < e.sound_len) :
    GameScreen.update_scene e g =
      ({ g with countdown_start_time := e.now, countdown_played := true },
       [Sound.countdown]) := by
  unfold GameScreen.update_scene
  simp [hs, hp, hl]

theorem update_serving_stay (e : Env) (g : GameScreen)
    (hs : g.serve = true) (hp : g.countdown_played = true)
    (ht : e.now - g.countdown_start_time < e.sound_len) :
    GameScreen.update_scene e g = (g, []) := by
  unfold GameScreen.update_scene
  simp [hs, hp, ht]

theorem update_serving_elapsed (e : Env) (g : GameScreen)
    (hs : g.serve = true) (hp : g.countdown_played = true)
    (ht : ¬ e.now - g.countdown_start_time < e.sound_len)
    (hw : g.wait_after_score = false) :
    GameScreen.update_scene e g = rallyPhase e { g with serve := false } := by
  unfold GameScreen.update_scene updateAfterServe
  simp [hs, hp, ht, hw]

theorem update_wait_stay (e : Env) (g : GameScreen)
    (hs : g.serve = false) (hw : g.wait_after_score = true)
    (ht : e.now - g.score_time < g.round_delay) :
    GameScreen.update_scene e g = (g, []) := by
  unfold GameScreen.update_scene updateAfterServe
  simp [hs, hw, ht]

theorem update_wait_elapsed (e : Env) (g : GameScreen)
    (hs : g.serve = false) (hw : g.wait_after_score = true)
    (ht : ¬ e.now - g.score_time < g.round_delay) :
    GameScreen.update_scene e g =
      rallyPhase e { g with wait_after_score := false, serve := true,
                            countdown_played := false } := by
  unfold GameScreen.update_scene updateAfterServe
  simp [hs, hw, ht]

theorem update_rallying (e : Env) (g : GameScreen)
    (hs : g.serve = false) (hw : g.wait_after_score = false) :
    GameScreen.update_scene e g = rallyPhase e g := by
  unfold GameScreen.update_scene updateAfterServe
  simp [hs, hw]

/-- The first projection of `rallyPhase` written as the phase chain. -/
theorem rallyPhase_fst (e : Env) (g : GameScreen) :
    (rallyPhase e g).1 =
      winCheckPhase (scorePhase2 e (aiMovePhase e.ai_random (aiDelayPhase
        (playerMovePhase (wallPhase (scorePhase1 e
          (moveBallPhase (collisionPhase g).1)).1).1)))) := rfl

theorem updateAfterServe_stay (e : Env) (g : GameScreen) (snds : List Sound)
    (hw : g.wait_after_score = true) (ht : e.now - g.score_time < g.round_delay) :
    updateAfterServe e g snds = (g, snds) := by
  unfold updateAfterServe
  simp [hw, ht]

theorem updateAfterServe_go_wait (e : Env) (g : GameScreen) (snds : List Sound)
    (hw : g.wait_after_score = true) (ht : ¬ e.now - g.score_time < g.round_delay) :
    updateAfterServe e g snds =
      ((rallyPhase e { g with wait_after_score := false, serve := true, countdown_played := false }).1,
       snds ++ (rallyPhase e { g with wait_after_score := false, serve := true, countdown_played := false }).2) := by
  unfold updateAfterServe
  simp [hw, ht]

theorem updateAfterServe_go (e : Env) (g : GameScreen) (snds : List Sound)
    (hw : g.wait_after_score = false) :
    updateAfterServe e g snds = ((rallyPhase e g).1, snds ++ (rallyPhase e g).2) := by
  unfold updateAfterServe
  simp [hw]

theorem update_serve_fall_entry (e : Env) (g : GameScreen)
    (hs : g.serve = true) (hp : g.countdown_played = false) (hl : ¬ 0 < e.sound_len) :
    GameScreen.update_scene e g =
      updateAfterServe e { g with countdown_start_time := e.now,
                                  countdown_played := true, serve := false }
        [Sound.countdown] := by
  unfold GameScreen.update_scene
  simp [hs, hp, hl]

theorem update_serve_fall (e : Env) (g : GameScreen)
    (hs : g.serve = true) (hp : g.countdown_played = true)
    (ht : ¬ e.now - g.countdown_start_time < e.sound_len) :
    GameScreen.update_scene e g = updateAfterServe e { g with serve := false } [] := by
  unfold GameScreen.update_scene
  simp [hs, hp, ht]

theorem update_no_serve (e : Env) (g : GameScreen) (hs : g.serve = false) :
    GameScreen.update_scene e g = updateAfterServe e g [] := by
  unfold GameScreen.update_scene
  simp [hs]

/-- Every `update_scene` call either returns a state whose non-gate
fields are those of the input, or hands a state with those same non-gate
fields to the physics part. -/
theorem update_core_cases (e : Env) (g : GameScreen) :
    (∃ g1, CoreEq g1 g ∧ (GameScreen.update_scene e g).1 = g1) ∨
    (∃ g1, CoreEq g1 g ∧ (GameScreen.update_scene e g).1 = (rallyPhase e g1).1) := by
  have hAS : ∀ (g1 : GameScreen) (snds : List Sound), CoreEq g1 g →
      (∃ g2, CoreEq g2 g ∧ (updateAfterServe e g1 snds).1 = g2) ∨
      (∃ g2, CoreEq g2 g ∧ (updateAfterServe e g1 snds).1 = (rallyPhase e g2).1) := by
    intro g1 snds hc
    by_cases hw : g1.wait_after_score = true
    · by_cases ht : e.now - g1.score_time < g1.round_delay
      · exact Or.inl ⟨g1, hc, by rw [updateAfterServe_stay e g1 snds hw ht]⟩
      · refine Or.inr ⟨{ g1 with wait_after_score := false, serve := true, countdown_played := false }, ?_, ?_⟩
        · obtain ⟨h1, h2, h3, h4, h5, h6, h7, h8, h9, h10, h11, h12, h13, h14,
            h15, h16, h17, h18⟩ := hc
          exact ⟨h1, h2, h3, h4, h5, h6, h7, h8, h9, h10, h11, h12, h13, h14,
            h15, h16, h17, h18⟩
        · rw [updateAfterServe_go_wait e g1 snds hw ht]
    · exact Or.inr ⟨g1, hc, by
        rw [updateAfterServe_go e g1 snds (by simpa using hw)]⟩
  by_cases hs : g.serve = true
  · by_cases hp : g.countdown_played = true
    · by_cases ht : e.now - g.countdown_start_time < e.sound_len
      · exact Or.inl ⟨g, by simp [CoreEq], by rw [update_serving_stay e g hs hp ht]⟩
      · rw [update_serve_fall e g hs hp ht]
        exact hAS { g with serve := false } [] (by simp [CoreEq])
    · by_cases hl : 0 < e.sound_len
      · exact Or.inl ⟨{ g with countdown_start_time := e.now, countdown_played := true },
          by simp [CoreEq],
          by rw [update_serving_entry e g hs (by simpa using hp) hl]⟩
      · rw [update_serve_fall_entry e g hs (by simpa using hp) hl]
        exact hAS _ _ (by simp [CoreEq])
  · rw [update_no_serve e g (by simpa using hs)]
    exact hAS g [] (by simp [CoreEq])

/-! ### Velocity invariant -/

theorem velOK_collision (g : GameScreen) (h : VelOK g) : VelOK (collisionPhase g).1 := by
  have hvy := (collisionPhase_frame g).2.2.2.2.1
  rcases collisionPhase_vx g with hv | hv <;> unfold VelOK at h ⊢ <;> omega

theorem velOK_move (g : GameScreen) (h : VelOK g) : VelOK (moveBallPhase g) := by
  unfold VelOK at h ⊢
  simpa using h

theorem velOK_sp1 (e : Env) (g : GameScreen) (he : e.Valid) (h : VelOK g) :
    VelOK (scorePhase1 e g).1 := by
  obtain ⟨hx, hy, _, _⟩ := he
  by_cases h1 : g.ball.right < 0
  · have hv := (scorePhase1_ai_scores e g h1).2.2.2.2.1
    unfold VelOK
    rw [hv]
    rcases hx with hx | hx <;> rcases hy with hy | hy <;> simp [hx, hy]
  · by_cases h2 : g.ball.left > g.width
    · have hv := (scorePhase1_player_scores e g h1 h2).2.2.2.2.1
      unfold VelOK
      rw [hv]
      rcases hx with hx | hx <;> rcases hy with hy | hy <;> simp [hx, hy]
    · rw [scorePhase1_none e g h1 h2]
      exact h

theorem velOK_wall (g : GameScreen) (h : VelOK g) : VelOK (wallPhase g).1 := by
  have hvx := (wallPhase_frame g).2.2.2.2.1
  rcases wallPhase_vy g with hv | hv <;> unfold VelOK at h ⊢ <;> omega

theorem velOK_pm (g : GameScreen) (h : VelOK g) : VelOK (playerMovePhase g) := by
  unfold VelOK at h ⊢
  simpa using h

theorem velOK_ad (g : GameScreen) (h : VelOK g) : VelOK (aiDelayPhase g) := by
  unfold VelOK at h ⊢
  simpa using h

theorem velOK_am (r : Int) (g : GameScreen) (h : VelOK g) : VelOK (aiMovePhase r g) := by
  unfold VelOK at h ⊢
  simpa using h

theorem velOK_sp2 (e : Env) (g : GameScreen) (he : e.Valid) (h : VelOK g) :
    VelOK (scorePhase2 e g) := by
  obtain ⟨_, _, hx, hy⟩ := he
  by_cases h1 : g.ball.right < 0
  · have hv := (scorePhase2_ai_scores e g h1).2.2.2.2.1
    unfold VelOK
    rw [hv]
    rcases hx with hx | hx <;> rcases hy with hy | hy <;> simp [hx, hy]
  · by_cases h2 : g.ball.left > g.width
    · have hv := (scorePhase2_player_scores e g h1 h2).2.2.2.2.1
      unfold VelOK
      rw [hv]
      rcases hx with hx | hx <;> rcases hy with hy | hy <;> simp [hx, hy]
    · rw [scorePhase2_none e g h1 h2]
      exact h

theorem velOK_wc (g : GameScreen) (h : VelOK g) : VelOK (winCheckPhase g) := by
  unfold VelOK at h ⊢
  simpa using h

theorem rally_velOK (e : Env) (g : GameScreen) (he : e.Valid) (h : VelOK g) :
    VelOK (rallyPhase e g).1 := by
  rw [rallyPhase_fst]
  exact velOK_wc _ (velOK_sp2 e _ he (velOK_am _ _ (velOK_ad _ (velOK_pm _
    (velOK_wall _ (velOK_sp1 e _ he (velOK_move _ (velOK_collision _ h))))))))

theorem coreEq_velOK {a b : GameScreen} (hc : CoreEq a b) (h : VelOK b) : VelOK a := by
  have h5 := hc.2.2.2.2.1
  unfold VelOK at h ⊢
  rw [h5]
  exact h

theorem update_velOK (e : Env) (g : GameScreen) (he : e.Valid) (h : VelOK g) :
    VelOK (GameScreen.update_scene e g).1 := by
  rcases update_core_cases e g with ⟨g1, hc, heq⟩ | ⟨g1, hc, heq⟩
  · rw [heq]
    exact coreEq_velOK hc h
  · rw [heq]
    exact rally_velOK e g1 he (coreEq_velOK hc h)

@[simp] theorem process_event_frame (ev : Event) (g : GameScreen) :
    (GameScreen.process_event ev g).width = g.width ∧
    (GameScreen.process_event ev g).height = g.height ∧
    (GameScreen.process_event ev g).is_valid = g.is_valid ∧
    (GameScreen.process_event ev g).ball = g.ball ∧
    (GameScreen.process_event ev g).ball_velocity = g.ball_velocity ∧
    (GameScreen.process_event ev g).player = g.player ∧
    (GameScreen.process_event ev g).ai = g.ai ∧
    (GameScreen.process_event ev g).player_speed = g.player_speed ∧
    (GameScreen.process_event ev g).ai_speed = g.ai_speed ∧
    (GameScreen.process_event ev g).ai_delay = g.ai_delay ∧
    (GameScreen.process_event ev g).player_score = g.player_score ∧
    (GameScreen.process_event ev g).ai_score = g.ai_score ∧
    (GameScreen.process_event ev g).countdown_played = g.countdown_played ∧
    (GameScreen.process_event ev g).countdown_start_time = g.countdown_start_time ∧
    (GameScreen.process_event ev g).serve = g.serve ∧
    (GameScreen.process_event ev g).round_delay = g.round_delay ∧
    (GameScreen.process_event ev g).wait_after_score = g.wait_after_score ∧
    (GameScreen.process_event ev g).score_time = g.score_time := by
  unfold GameScreen.process_event
  cases ev <;> simp <;> split_ifs <;> simp

theorem process_event_velOK (ev : Event) (g : GameScreen) (h : VelOK g) :
    VelOK (GameScreen.process_event ev g) := by
  unfold VelOK at h ⊢
  simpa using h

/-! ### Bounds invariant -/

theorem boundsInv_collision (g : GameScreen) (h : BoundsInv g) :
    BoundsInv (collisionPhase g).1 := by
  unfold BoundsInv VelOK at h ⊢
  rcases collisionPhase_vx g with hv | hv <;> simp <;> omega

theorem boundsInv_msw (e : Env) (g : GameScreen) (he : e.Valid) (h : BoundsInv g) :
    BoundsInv (wallPhase (scorePhase1 e (moveBallPhase g)).1).1 := by
  obtain ⟨hx, hy, _, _⟩ := he
  have hm := moveBallPhase_frame g
  by_cases h1 : (moveBallPhase g).ball.right < 0
  · -- AI scored: ball recentered, paddles reset, wall cannot fire
    have hc := scorePhase1_ai_scores e (moveBallPhase g) h1
    have hf := scorePhase1_frame e (moveBallPhase g)
    by_cases h2 : (scorePhase1 e (moveBallPhase g)).1.ball.bottom ≥
        (scorePhase1 e (moveBallPhase g)).1.height ∨
        (scorePhase1 e (moveBallPhase g)).1.ball.top ≤ 0
    · exfalso
      unfold BoundsInv at h
      unfold Rect.bottom Rect.top at h2
      omega
    · rw [wallPhase_none _ h2]
      unfold BoundsInv VelOK at h ⊢
      rcases hx with hx | hx <;> rcases hy with hy | hy <;>
        simp [hc.2.2.2.2.1, hx, hy] <;> omega
  · by_cases h2 : (moveBallPhase g).ball.left > (moveBallPhase g).width
    · -- player scored: same shape
      have h2' : (moveBallPhase g).ball.left > (moveBallPhase g).width := h2
      have hc := scorePhase1_player_scores e (moveBallPhase g) h1 h2'
      have hf := scorePhase1_frame e (moveBallPhase g)
      by_cases h3 : (scorePhase1 e (moveBallPhase g)).1.ball.bottom ≥
          (scorePhase1 e (moveBallPhase g)).1.height ∨
          (scorePhase1 e (moveBallPhase g)).1.ball.top ≤ 0
      · exfalso
        unfold BoundsInv at h
        unfold Rect.bottom Rect.top at h3
        omega
      · rw [wallPhase_none _ h3]
        unfold BoundsInv VelOK at h ⊢
        rcases hx with hx | hx <;> rcases hy with hy | hy <;>
          simp [hc.2.2.2.2.1, hx, hy] <;> omega
    · -- no score: moved ball, possible wall flip
      rw [scorePhase1_none e (moveBallPhase g) h1 h2]
      by_cases h3 : (moveBallPhase g).ball.bottom ≥ (moveBallPhase g).height ∨
          (moveBallPhase g).ball.top ≤ 0
      · rw [wallPhase_bounce _ h3]
        unfold Rect.bottom Rect.top at h3
        unfold BoundsInv VelOK at h ⊢
        simp at h3 ⊢
        omega
      · rw [wallPhase_none _ h3]
        unfold Rect.bottom Rect.top at h3
        unfold BoundsInv VelOK at h ⊢
        simp at h3 ⊢
        omega

theorem boundsInv_pm (g : GameScreen) (h : BoundsInv g) :
    BoundsInv (playerMovePhase g) := by
  unfold BoundsInv VelOK at h ⊢
  simp only [playerMovePhase, Rect.top, Rect.bottom]
  split_ifs <;> simp_all <;> omega

theorem boundsInv_ad (g : GameScreen) (h : BoundsInv g) :
    BoundsInv (aiDelayPhase g) := by
  unfold BoundsInv VelOK at h ⊢
  simpa using h

theorem boundsInv_am (r : Int) (g : GameScreen) (h : BoundsInv g) :
    BoundsInv (aiMovePhase r g) := by
  unfold BoundsInv VelOK at h ⊢
  simp only [aiMovePhase, Rect.top, Rect.bottom, Rect.centery]
  split_ifs <;> simp_all <;> omega

theorem boundsInv_sp2 (e : Env) (g : GameScreen) (he : e.Valid) (h : BoundsInv g) :
    BoundsInv (scorePhase2 e g) := by
  obtain ⟨_, _, hx, hy⟩ := he
  by_cases h1 : g.ball.right < 0
  · have hc := scorePhase2_ai_scores e g h1
    unfold BoundsInv VelOK at h ⊢
    rcases hx with hx | hx <;> rcases hy with hy | hy <;>
      simp [hc.2.2.2.2.1, hx, hy] <;> omega
  · by_cases h2 : g.ball.left > g.width
    · have hc := scorePhase2_player_scores e g h1 h2
      unfold BoundsInv VelOK at h ⊢
      rcases hx with hx | hx <;> rcases hy with hy | hy <;>
        simp [hc.2.2.2.2.1, hx, hy] <;> omega
    · rw [scorePhase2_none e g h1 h2]
      exact h

theorem boundsInv_wc (g : GameScreen) (h : BoundsInv g) :
    BoundsInv (winCheckPhase g) := by
  unfold BoundsInv VelOK at h ⊢
  simpa using h

theorem rally_boundsInv (e : Env) (g : GameScreen) (he : e.Valid) (h : BoundsInv g) :
    BoundsInv (rallyPhase e g).1 := by
  rw [rallyPhase_fst]
  exact boundsInv_wc _ (boundsInv_sp2 e _ he (boundsInv_am _ _ (boundsInv_ad _
    (boundsInv_pm _ (boundsInv_msw e _ he (boundsInv_collision _ h))))))

theorem coreEq_boundsInv {a b : GameScreen} (hc : CoreEq a b) (h : BoundsInv b) :
    BoundsInv a := by
  obtain ⟨h1, h2, h3, h4, h5, h6, h7, h8, h9, h10, h11, h12, h13, h14, h15, h16,
    h17, h18⟩ := hc
  unfold BoundsInv VelOK at h ⊢
  rw [h2, h1, h10, h11, h4, h5, h6, h7]
  exact h

theorem coreEq_scores_valid {a b : GameScreen} (hc : CoreEq a b) :
    a.player_score = b.player_score ∧ a.ai_score = b.ai_score ∧
    a.is_valid = b.is_valid := by
  obtain ⟨_, _, h3, _, _, _, _, _, _, _, _, _, h13, h14, _, _, _, _⟩ := hc
  exact ⟨h13, h14, h3⟩

theorem update_boundsInv (e : Env) (g : GameScreen) (he : e.Valid)
    (h : BoundsInv g) : BoundsInv (GameScreen.update_scene e g).1 := by
  rcases update_core_cases e g with ⟨g1, hc, heq⟩ | ⟨g1, hc, heq⟩
  · rw [heq]
    exact coreEq_boundsInv hc h
  · rw [heq]
    exact rally_boundsInv e g1 he (coreEq_boundsInv hc h)

theorem process_event_boundsInv (ev : Event) (g : GameScreen) (h : BoundsInv g) :
    BoundsInv (GameScreen.process_event ev g) := by
  unfold BoundsInv VelOK at h ⊢
  simpa using h

theorem init_boundsInv (w h t : Int) (hh : 200 ≤ h) (hw : 0 ≤ w) :
    BoundsInv (GameScreen.init (w, h) t) := by
  unfold BoundsInv VelOK GameScreen.init
  simp
  omega

/-! ### Score accounting -/

/-- The phases between the first and the second scoring check leave the
ball rectangle, the surface size and the scores untouched. -/
theorem midPhases_preserve (r : Int) (t : GameScreen) :
    (aiMovePhase r (aiDelayPhase (playerMovePhase (wallPhase t).1))).ball = t.ball ∧
    (aiMovePhase r (aiDelayPhase (playerMovePhase (wallPhase t).1))).width = t.width ∧
    (aiMovePhase r (aiDelayPhase (playerMovePhase (wallPhase t).1))).height = t.height ∧
    (aiMovePhase r (aiDelayPhase (playerMovePhase (wallPhase t).1))).player_score
      = t.player_score ∧
    (aiMovePhase r (aiDelayPhase (playerMovePhase (wallPhase t).1))).ai_score
      = t.ai_score ∧
    (aiMovePhase r (aiDelayPhase (playerMovePhase (wallPhase t).1))).is_valid
      = t.is_valid ∧
    (aiMovePhase r (aiDelayPhase (playerMovePhase (wallPhase t).1))).wait_after_score
      = t.wait_after_score ∧
    (aiMovePhase r (aiDelayPhase (playerMovePhase (wallPhase t).1))).serve = t.serve ∧
    (aiMovePhase r (aiDelayPhase (playerMovePhase (wallPhase t).1))).countdown_played
      = t.countdown_played ∧
    (aiMovePhase r (aiDelayPhase (playerMovePhase (wallPhase t).1))).ball_velocity.1
      = t.ball_velocity.1 ∧
    (aiMovePhase r (aiDelayPhase (playerMovePhase (wallPhase t).1))).score_time
      = t.score_time := by
  simp

/-- In the physics part, scores never decrease and their sum grows by at
most one: the second scoring check never fires because the first one
either did not fire (and the ball has not moved since) or recentered the
ball. -/
theorem rally_scores (e : Env) (g : GameScreen)
    (hw : 0 ≤ g.width) (hbw : g.ball.w = 30) :
    g.player_score ≤ (rallyPhase e g).1.player_score ∧
    g.ai_score ≤ (rallyPhase e g).1.ai_score ∧
    (rallyPhase e g).1.player_score + (rallyPhase e g).1.ai_score
      ≤ g.player_score + g.ai_score + 1 := by
  rw [rallyPhase_fst]
  have hcw : (collisionPhase g).1.ball.w = g.ball.w := (collisionPhase_frame g).2.2.2.1 ▸ rfl
  have hg2w : (moveBallPhase (collisionPhase g).1).ball.w = 30 := by simp [hbw]
  have hg2W : (moveBallPhase (collisionPhase g).1).width = g.width := by simp
  have hg2ps : (moveBallPhase (collisionPhase g).1).player_score = g.player_score := by simp
  have hg2as : (moveBallPhase (collisionPhase g).1).ai_score = g.ai_score := by simp
  set g2 := moveBallPhase (collisionPhase g).1 with hg2def
  by_cases h1 : g2.ball.right < 0
  · have hc := scorePhase1_ai_scores e g2 h1
    have hf := scorePhase1_frame e g2
    have hmid := midPhases_preserve e.ai_random (scorePhase1 e g2).1
    have hnf1 : ¬ (aiMovePhase e.ai_random (aiDelayPhase (playerMovePhase
        (wallPhase (scorePhase1 e g2).1).1))).ball.right < 0 := by
      unfold Rect.right
      rw [hmid.1]
      omega
    have hnf2 : ¬ (aiMovePhase e.ai_random (aiDelayPhase (playerMovePhase
        (wallPhase (scorePhase1 e g2).1).1))).ball.left >
        (aiMovePhase e.ai_random (aiDelayPhase (playerMovePhase
        (wallPhase (scorePhase1 e g2).1).1))).width := by
      unfold Rect.left
      rw [hmid.1, hmid.2.1]
      omega
    rw [scorePhase2_none _ _ hnf1 hnf2]
    simp
    omega
  · by_cases h2 : g2.ball.left > g2.width
    · have hc := scorePhase1_player_scores e g2 h1 h2
      have hf := scorePhase1_frame e g2
      have hmid := midPhases_preserve e.ai_random (scorePhase1 e g2).1
      have hnf1 : ¬ (aiMovePhase e.ai_random (aiDelayPhase (playerMovePhase
          (wallPhase (scorePhase1 e g2).1).1))).ball.right < 0 := by
        unfold Rect.right
        rw [hmid.1]
        omega
      have hnf2 : ¬ (aiMovePhase e.ai_random (aiDelayPhase (playerMovePhase
          (wallPhase (scorePhase1 e g2).1).1))).ball.left >
          (aiMovePhase e.ai_random (aiDelayPhase (playerMovePhase
          (wallPhase (scorePhase1 e g2).1).1))).width := by
        unfold Rect.left
        rw [hmid.1, hmid.2.1]
        omega
      rw [scorePhase2_none _ _ hnf1 hnf2]
      simp
      omega
    · rw [scorePhase1_none e g2 h1 h2]
      have hmid := midPhases_preserve e.ai_random g2
      have hnf1 : ¬ (aiMovePhase e.ai_random (aiDelayPhase (playerMovePhase
          (wallPhase g2).1))).ball.right < 0 := by
        rw [show (aiMovePhase e.ai_random (aiDelayPhase (playerMovePhase
          (wallPhase g2).1))).ball = g2.ball from hmid.1]
        exact h1
      have hnf2 : ¬ (aiMovePhase e.ai_random (aiDelayPhase (playerMovePhase
          (wallPhase g2).1))).ball.left >
          (aiMovePhase e.ai_random (aiDelayPhase (playerMovePhase
          (wallPhase g2).1))).width := by
        rw [show (aiMovePhase e.ai_random (aiDelayPhase (playerMovePhase
          (wallPhase g2).1))).ball = g2.ball from hmid.1,
          show (aiMovePhase e.ai_random (aiDelayPhase (playerMovePhase
          (wallPhase g2).1))).width = g2.width from hmid.2.1]
        exact h2
      rw [scorePhase2_none _ _ hnf1 hnf2]
      simp
      omega

theorem aiMovePhase_none (r : Int) (g : GameScreen)
    (hu : ¬ (g.ball.centery + r < g.ai.centery - 60 ∧ 0 < g.ai.top))
    (hd : ¬ (g.ball.y + r > g.ai.centery + 60 ∧ g.ai.bottom < g.height)) :
    aiMovePhase r g = g := by
  unfold aiMovePhase
  simp [hu, hd]

theorem scorePhase1_sounds (e : Env) (g : GameScreen) :
    (scorePhase1 e g).2 = [] ∨ (scorePhase1 e g).2 = [Sound.score] := by
  unfold scorePhase1
  split_ifs <;> simp

theorem rallyPhase_snd (e : Env) (g : GameScreen) :
    (rallyPhase e g).2 =
      (collisionPhase g).2 ++
      (scorePhase1 e (moveBallPhase (collisionPhase g).1)).2 ++
      (wallPhase (scorePhase1 e (moveBallPhase (collisionPhase g).1)).1).2 := rfl

theorem rally_no_countdown (e : Env) (g : GameScreen) :
    Sound.countdown ∉ (rallyPhase e g).2 := by
  rw [rallyPhase_snd]
  rcases collisionPhase_sounds g with h1 | h1 <;>
    rcases scorePhase1_sounds e (moveBallPhase (collisionPhase g).1) with h2 | h2 <;>
    rcases wallPhase_sounds (scorePhase1 e (moveBallPhase (collisionPhase g).1)).1
      with h3 | h3 <;>
    simp [h1, h2, h3]

theorem updateAfterServe_no_countdown (e : Env) (g : GameScreen) (snds : List Sound)
    (h : Sound.countdown ∉ snds) :
    Sound.countdown ∉ (updateAfterServe e g snds).2 := by
  by_cases hw : g.wait_after_score = true
  · by_cases ht : e.now - g.score_time < g.round_delay
    · rw [updateAfterServe_stay e g snds hw ht]
      exact h
    · rw [updateAfterServe_go_wait e g snds hw ht]
      simp only [List.mem_append]
      push_neg
      exact ⟨h, rally_no_countdown e _⟩
  · rw [updateAfterServe_go e g snds (by simpa using hw)]
    simp only [List.mem_append]
    push_neg
    exact ⟨h, rally_no_countdown e _⟩

/-- Once the countdown-played flag is set, no later call plays the
countdown sound again (until the flag is reset by the wait gate). -/
theorem update_no_countdown (e : Env) (g : GameScreen)
    (hp : g.countdown_played = true) :
    Sound.countdown ∉ (GameScreen.update_scene e g).2 := by
  by_cases hs : g.serve = true
  · by_cases ht : e.now - g.countdown_start_time < e.sound_len
    · rw [update_serving_stay e g hs hp ht]
      simp
    · rw [update_serve_fall e g hs hp ht]
      exact updateAfterServe_no_countdown e _ [] (by simp)
  · rw [update_no_serve e g (by simpa using hs)]
    exact updateAfterServe_no_countdown e g [] (by simp)

/-- Per `update_scene` call, scores never decrease and their sum grows by
at most one. -/
theorem update_scores (e : Env) (g : GameScreen)
    (hw : 0 ≤ g.width) (hbw : g.ball.w = 30) :
    g.player_score ≤ (GameScreen.update_scene e g).1.player_score ∧
    g.ai_score ≤ (GameScreen.update_scene e g).1.ai_score ∧
    (GameScreen.update_scene e g).1.player_score +
      (GameScreen.update_scene e g).1.ai_score
      ≤ g.player_score + g.ai_score + 1 := by
  rcases update_core_cases e g with ⟨g1, hc, heq⟩ | ⟨g1, hc, heq⟩
  · obtain ⟨hps, has, _⟩ := coreEq_scores_valid hc
    rw [heq, hps, has]
    omega
  · obtain ⟨hps, has, _⟩ := coreEq_scores_valid hc
    have hw1 : 0 ≤ g1.width := by rw [hc.1]; exact hw
    have hbw1 : g1.ball.w = 30 := by rw [hc.2.2.2.1]; exact hbw
    have := rally_scores e g1 hw1 hbw1
    rw [heq]
    omega

/-- Within the physics part, if the resulting scores have reached 3 the
result is invalid: the win check is the last step. -/
theorem rally_win (e : Env) (g : GameScreen)
    (h : 3 ≤ (rallyPhase e g).1.player_score ∨ 3 ≤ (rallyPhase e g).1.ai_score) :
    (rallyPhase e g).1.is_valid = false := by
  rw [rallyPhase_fst] at h ⊢
  exact winCheckPhase_valid_of_score _ h

/-- On every state reachable under the driver discipline, a score of 3
entails invalidity. -/
theorem reach_score_invalid (size : Int × Int) (ticks : Int) (g : GameScreen)
    (h : Reach size ticks g)
    (hsc : 3 ≤ g.player_score ∨ 3 ≤ g.ai_score) : g.is_valid = false := by
  induction h with
  | init =>
      exfalso
      unfold GameScreen.init at hsc
      simp at hsc
  | @update g0 e hv hval h ih =>
      rcases update_core_cases e g0 with ⟨g1, hc, heq⟩ | ⟨g1, hc, heq⟩
      · obtain ⟨hps, has, hvd⟩ := coreEq_scores_valid hc
        rw [heq] at hsc ⊢
        rw [hps, has] at hsc
        rw [hvd]
        rw [ih hsc] at hval
        cases hval
      · rw [heq] at hsc ⊢
        exact rally_win e g1 hsc
  | @event g0 ev h ih =>
      have hf := process_event_frame ev g0
      rw [hf.2.2.2.2.2.2.2.2.2.2.1, hf.2.2.2.2.2.2.2.2.2.2.2.1] at hsc
      rw [hf.2.2.1]
      exact ih hsc

theorem dstep_frozen {a b : GameScreen} (hv : a.is_valid = false) (h : DStep a b) :
    b.is_valid = false ∧ b.player_score = a.player_score ∧
    b.ai_score = a.ai_score := by
  rcases h with ⟨ev, rfl⟩ | ⟨hval, _⟩
  · simp [hv]
  · rw [hval] at hv
    cases hv

/-- Once invalid, any sequence of driver steps keeps the scene invalid
with both scores frozen. -/
theorem dsteps_frozen {a b : GameScreen} (hv : a.is_valid = false)
    (h : Relation.ReflTransGen DStep a b) :
    b.is_valid = false ∧ b.player_score = a.player_score ∧
    b.ai_score = a.ai_score := by
  induction h with
  | refl => exact ⟨hv, rfl, rfl⟩
  | tail hs hstep ih =>
      obtain ⟨ih1, ih2, ih3⟩ := ih
      obtain ⟨j1, j2, j3⟩ := dstep_frozen ih1 hstep
      exact ⟨j1, by rw [j2, ih2], by rw [j3, ih3]⟩

/-- Full-call facts for a frame in `Rallying` in which the moved ball
exits past the player's side (`right < 0`): the AI scores once, the ball
is recentered with freshly signed velocity, both paddles are reset (the
player paddle provably stays at its start position when no movement
intent is set; the AI paddle always does), and the scene enters the
post-score wait. -/
theorem update_exit_left_facts (e : Env) (g : GameScreen)
    (hs : g.serve = false) (hwt : g.wait_after_score = false)
    (hcp : g.ball.colliderect g.player = false)
    (hca : g.ball.colliderect g.ai = false)
    (hout : g.ball.x + g.ball_velocity.1 + g.ball.w < 0)
    (hW : 0 ≤ g.width) (hbw : g.ball.w = 30) (hbh : g.ball.h = 30)
    (haih : g.ai.h = 180)
    (hr1 : -40 ≤ e.ai_random) (hr2 : e.ai_random ≤ 40)
    (hH : 32 ≤ g.height) :
    (GameScreen.update_scene e g).1.ai_score = g.ai_score + 1 ∧
    (GameScreen.update_scene e g).1.player_score = g.player_score ∧
    (GameScreen.update_scene e g).1.ball.x = g.width / 2 - 15 ∧
    (GameScreen.update_scene e g).1.ball.y = g.height / 2 - 15 ∧
    (GameScreen.update_scene e g).1.ball_velocity = (8 * e.sign_x, 8 * e.sign_y) ∧
    (GameScreen.update_scene e g).1.wait_after_score = true ∧
    (GameScreen.update_scene e g).1.serve = false ∧
    (GameScreen.update_scene e g).1.ai.x = g.width - 40 ∧
    (GameScreen.update_scene e g).1.ai.y = g.height / 2 - 80 ∧
    (GameScreen.update_scene e g).1.player.x = 30 ∧
    (g.player_move_up = false → g.player_move_down = false →
      (GameScreen.update_scene e g).1.player.y = g.height / 2 - 80) := by
  have hcoll := collisionPhase_none g hcp hca
  rw [update_rallying e g hs hwt, rallyPhase_fst, hcoll]
  dsimp only
  have h1 : (moveBallPhase g).ball.right < 0 := by
    unfold Rect.right
    simp
    omega
  have hc := scorePhase1_ai_scores e (moveBallPhase g) h1
  simp at hc
  have hbh1 : (scorePhase1 e (moveBallPhase g)).1.ball.h = 30 := by simp [hbh]
  have hbw1 : (scorePhase1 e (moveBallPhase g)).1.ball.w = 30 := by simp [hbw]
  have hH1 : (scorePhase1 e (moveBallPhase g)).1.height = g.height := by simp
  have hW1 : (scorePhase1 e (moveBallPhase g)).1.width = g.width := by simp
  have haih1 : (scorePhase1 e (moveBallPhase g)).1.ai.h = 180 := by simp [haih]
  have hwall : ¬ ((scorePhase1 e (moveBallPhase g)).1.ball.bottom ≥
      (scorePhase1 e (moveBallPhase g)).1.height ∨
      (scorePhase1 e (moveBallPhase g)).1.ball.top ≤ 0) := by
    unfold Rect.bottom Rect.top
    omega
  rw [wallPhase_none _ hwall]
  have hamu : ¬ ((aiDelayPhase (playerMovePhase (scorePhase1 e
      (moveBallPhase g)).1)).ball.centery + e.ai_random <
      (aiDelayPhase (playerMovePhase (scorePhase1 e
      (moveBallPhase g)).1)).ai.centery - 60 ∧
      0 < (aiDelayPhase (playerMovePhase (scorePhase1 e
      (moveBallPhase g)).1)).ai.top) := by
    unfold Rect.centery Rect.top
    simp
    omega
  have hamd : ¬ ((aiDelayPhase (playerMovePhase (scorePhase1 e
      (moveBallPhase g)).1)).ball.y + e.ai_random >
      (aiDelayPhase (playerMovePhase (scorePhase1 e
      (moveBallPhase g)).1)).ai.centery + 60 ∧
      (aiDelayPhase (playerMovePhase (scorePhase1 e
      (moveBallPhase g)).1)).ai.bottom <
      (aiDelayPhase (playerMovePhase (scorePhase1 e
      (moveBallPhase g)).1)).height) := by
    unfold Rect.centery Rect.bottom
    simp
    omega
  rw [aiMovePhase_none _ _ hamu hamd]
  have hnf1 : ¬ (aiDelayPhase (playerMovePhase (scorePhase1 e
      (moveBallPhase g)).1)).ball.right < 0 := by
    unfold Rect.right
    simp
    omega
  have hnf2 : ¬ (aiDelayPhase (playerMovePhase (scorePhase1 e
      (moveBallPhase g)).1)).ball.left >
      (aiDelayPhase (playerMovePhase (scorePhase1 e
      (moveBallPhase g)).1)).width := by
    unfold Rect.left
    simp
    omega
  rw [scorePhase2_none _ _ hnf1 hnf2]
  refine ⟨by simp; omega, by simp; omega, by simp; omega, by simp; omega,
    ?_, by simp; exact hc.2.2.2.2.2.2.2.2.2.1, by simp [hs], by simp; omega,
    by simp; omega, by simp; omega, ?_⟩
  · simp [hc.2.2.2.2.1]
  · intro hu hd
    have hstill : playerMovePhase (scorePhase1 e (moveBallPhase g)).1 =
        (scorePhase1 e (moveBallPhase g)).1 := by
      refine playerMovePhase_still _ ?_ ?_ <;> simp [hu, hd]
    rw [hstill]
    simp
    omega

/-- Full-call facts for a frame in `Rallying` in which the moved ball
exits past the AI's side (`left > width`): the player scores once, with
the same reset effects as on the other side. -/
theorem update_exit_right_facts (e : Env) (g : GameScreen)
    (hs : g.serve = false) (hwt : g.wait_after_score = false)
    (hcp : g.ball.colliderect g.player = false)
    (hca : g.ball.colliderect g.ai = false)
    (hout : g.ball.x + g.ball_velocity.1 > g.width)
    (hW : 0 ≤ g.width) (hbw : g.ball.w = 30) (hbh : g.ball.h = 30)
    (haih : g.ai.h = 180)
    (hr1 : -40 ≤ e.ai_random) (hr2 : e.ai_random ≤ 40)
    (hH : 32 ≤ g.height) :
    (GameScreen.update_scene e g).1.player_score = g.player_score + 1 ∧
    (GameScreen.update_scene e g).1.ai_score = g.ai_score ∧
    (GameScreen.update_scene e g).1.ball.x = g.width / 2 - 15 ∧
    (GameScreen.update_scene e g).1.ball.y = g.height / 2 - 15 ∧
    (GameScreen.update_scene e g).1.ball_velocity = (8 * e.sign_x, 8 * e.sign_y) ∧
    (GameScreen.update_scene e g).1.wait_after_score = true ∧
    (GameScreen.update_scene e g).1.serve = false ∧
    (GameScreen.update_scene e g).1.ai.x = g.width - 40 ∧
    (GameScreen.update_scene e g).1.ai.y = g.height / 2 - 80 ∧
    (GameScreen.update_scene e g).1.player.x = 30 ∧
    (g.player_move_up = false → g.player_move_down = false →
      (GameScreen.update_scene e g).1.player.y = g.height / 2 - 80) := by
  have hcoll := collisionPhase_none g hcp hca
  rw [update_rallying e g hs hwt, rallyPhase_fst, hcoll]
  dsimp only
  have h1 : ¬ (moveBallPhase g).ball.right < 0 := by
    unfold Rect.right
    simp
    omega
  have h2 : (moveBallPhase g).ball.left > (moveBallPhase g).width := by
    unfold Rect.left
    simp
    omega
  have hc := scorePhase1_player_scores e (moveBallPhase g) h1 h2
  simp at hc
  have hbh1 : (scorePhase1 e (moveBallPhase g)).1.ball.h = 30 := by simp [hbh]
  have hbw1 : (scorePhase1 e (moveBallPhase g)).1.ball.w = 30 := by simp [hbw]
  have hH1 : (scorePhase1 e (moveBallPhase g)).1.height = g.height := by simp
  have hW1 : (scorePhase1 e (moveBallPhase g)).1.width = g.width := by simp
  have haih1 : (scorePhase1 e (moveBallPhase g)).1.ai.h = 180 := by simp [haih]
  have hwall : ¬ ((scorePhase1 e (moveBallPhase g)).1.ball.bottom ≥
      (scorePhase1 e (moveBallPhase g)).1.height ∨
      (scorePhase1 e (moveBallPhase g)).1.ball.top ≤ 0) := by
    unfold Rect.bottom Rect.top
    omega
  rw [wallPhase_none _ hwall]
  have hamu : ¬ ((aiDelayPhase (playerMovePhase (scorePhase1 e
      (moveBallPhase g)).1)).ball.centery + e.ai_random <
      (aiDelayPhase (playerMovePhase (scorePhase1 e
      (moveBallPhase g)).1)).ai.centery - 60 ∧
      0 < (aiDelayPhase (playerMovePhase (scorePhase1 e
      (moveBallPhase g)).1)).ai.top) := by
    unfold Rect.centery Rect.top
    simp
    omega
  have hamd : ¬ ((aiDelayPhase (playerMovePhase (scorePhase1 e
      (moveBallPhase g)).1)).ball.y + e.ai_random >
      (aiDelayPhase (playerMovePhase (scorePhase1 e
      (moveBallPhase g)).1)).ai.centery + 60 ∧
      (aiDelayPhase (playerMovePhase (scorePhase1 e
      (moveBallPhase g)).1)).ai.bottom <
      (aiDelayPhase (playerMovePhase (scorePhase1 e
      (moveBallPhase g)).1)).height) := by
    unfold Rect.centery Rect.bottom
    simp
    omega
  rw [aiMovePhase_none _ _ hamu hamd]
  have hnf1 : ¬ (aiDelayPhase (playerMovePhase (scorePhase1 e
      (moveBallPhase g)).1)).ball.right < 0 := by
    unfold Rect.right
    simp
    omega
  have hnf2 : ¬ (aiDelayPhase (playerMovePhase (scorePhase1 e
      (moveBallPhase g)).1)).ball.left >
      (aiDelayPhase (playerMovePhase (scorePhase1 e
      (moveBallPhase g)).1)).width := by
    unfold Rect.left
    simp
    omega
  rw [scorePhase2_none _ _ hnf1 hnf2]
  refine ⟨by simp; omega, by simp; omega, by simp; omega, by simp; omega,
    ?_, by simp; exact hc.2.2.2.2.2.2.2.2.2.1, by simp [hs], by simp; omega,
    by simp; omega, by simp; omega, ?_⟩
  · simp [hc.2.2.2.2.1]
  · intro hu hd
    have hstill : playerMovePhase (scorePhase1 e (moveBallPhase g)).1 =
        (scorePhase1 e (moveBallPhase g)).1 := by
      refine playerMovePhase_still _ ?_ ?_ <;> simp [hu, hd]
    rw [hstill]
    simp
    omega

/-- Scores on a `Rallying` frame whose moved ball exits past the
player's side, without any geometry assumptions beyond the ball width
and a non-negative surface width. -/
theorem update_ai_score_exit (e : Env) (g : GameScreen)
    (hs : g.serve = false) (hwt : g.wait_after_score = false)
    (hcp : g.ball.colliderect g.player = false)
    (hca : g.ball.colliderect g.ai = false)
    (hout : g.ball.x + g.ball_velocity.1 + g.ball.w < 0)
    (hW : 0 ≤ g.width) (hbw : g.ball.w = 30) :
    (GameScreen.update_scene e g).1.ai_score = g.ai_score + 1 ∧
    (GameScreen.update_scene e g).1.player_score = g.player_score := by
  have hcoll := collisionPhase_none g hcp hca
  rw [update_rallying e g hs hwt, rallyPhase_fst, hcoll]
  dsimp only
  have h1 : (moveBallPhase g).ball.right < 0 := by
    unfold Rect.right
    simp
    omega
  have hc := scorePhase1_ai_scores e (moveBallPhase g) h1
  simp at hc
  have hbw1 : (scorePhase1 e (moveBallPhase g)).1.ball.w = 30 := by simp [hbw]
  have hW1 : (scorePhase1 e (moveBallPhase g)).1.width = g.width := by simp
  have hmid := midPhases_preserve e.ai_random (scorePhase1 e (moveBallPhase g)).1
  have hnf1 : ¬ (aiMovePhase e.ai_random (aiDelayPhase (playerMovePhase
      (wallPhase (scorePhase1 e (moveBallPhase g)).1).1))).ball.right < 0 := by
    unfold Rect.right
    rw [hmid.1]
    omega
  have hnf2 : ¬ (aiMovePhase e.ai_random (aiDelayPhase (playerMovePhase
      (wallPhase (scorePhase1 e (moveBallPhase g)).1).1))).ball.left >
      (aiMovePhase e.ai_random (aiDelayPhase (playerMovePhase
      (wallPhase (scorePhase1 e (moveBallPhase g)).1).1))).width := by
    unfold Rect.left
    rw [hmid.1, hmid.2.1]
    omega
  rw [scorePhase2_none _ _ hnf1 hnf2]
  constructor <;> simp <;> omega

theorem update_round_delay (e : Env) (g : GameScreen) :
    (GameScreen.update_scene e g).1.round_delay = g.round_delay := by
  rcases update_core_cases e g with ⟨g1, hc, heq⟩ | ⟨g1, hc, heq⟩
  · rw [heq]
    exact hc.2.2.2.2.2.2.2.2.2.2.2.2.2.2.2.2.1
  · rw [heq, rallyPhase_fst]
    simp
    exact hc.2.2.2.2.2.2.2.2.2.2.2.2.2.2.2.2.1

/-- The AI decision on a full `Rallying` call with no paddle contact and
no scoring: the post-call AI paddle height follows the source rule
evaluated at the moved ball — the upward test uses the ball's vertical
center plus the jitter, the downward test the ball's top edge plus the
jitter. -/
theorem update_ai_rule (e : Env) (g : GameScreen)
    (hs : g.serve = false) (hwt : g.wait_after_score = false)
    (hcp : g.ball.colliderect g.player = false)
    (hca : g.ball.colliderect g.ai = false)
    (hn1 : ¬ g.ball.x + g.ball_velocity.1 + g.ball.w < 0)
    (hn2 : ¬ g.ball.x + g.ball_velocity.1 > g.width) :
    (GameScreen.update_scene e g).1.ai.y =
      (if g.ball.y + g.ball_velocity.2 + g.ball.h / 2 + e.ai_random
            < g.ai.centery - 60 ∧ 0 < g.ai.top
       then g.ai.y - g.ai_speed
       else if g.ball.y + g.ball_velocity.2 + e.ai_random
            > g.ai.centery + 60 ∧ g.ai.bottom < g.height
       then g.ai.y + g.ai_speed
       else g.ai.y) := by
  have hcoll := collisionPhase_none g hcp hca
  rw [update_rallying e g hs hwt, rallyPhase_fst, hcoll]
  dsimp only
  have h1 : ¬ (moveBallPhase g).ball.right < 0 := by
    unfold Rect.right
    simp
    omega
  have h2 : ¬ (moveBallPhase g).ball.left > (moveBallPhase g).width := by
    unfold Rect.left
    simp
    omega
  rw [scorePhase1_none _ _ h1 h2]
  have hmid := midPhases_preserve e.ai_random (moveBallPhase g)
  have hnf1 : ¬ (aiMovePhase e.ai_random (aiDelayPhase (playerMovePhase
      (wallPhase (moveBallPhase g)).1))).ball.right < 0 := by
    rw [show (aiMovePhase e.ai_random (aiDelayPhase (playerMovePhase
      (wallPhase (moveBallPhase g)).1))).ball = (moveBallPhase g).ball from hmid.1]
    exact h1
  have hnf2 : ¬ (aiMovePhase e.ai_random (aiDelayPhase (playerMovePhase
      (wallPhase (moveBallPhase g)).1))).ball.left >
      (aiMovePhase e.ai_random (aiDelayPhase (playerMovePhase
      (wallPhase (moveBallPhase g)).1))).width := by
    rw [show (aiMovePhase e.ai_random (aiDelayPhase (playerMovePhase
      (wallPhase (moveBallPhase g)).1))).ball = (moveBallPhase g).ball from hmid.1,
      show (aiMovePhase e.ai_random (aiDelayPhase (playerMovePhase
      (wallPhase (moveBallPhase g)).1))).width = (moveBallPhase g).width from hmid.2.1]
    exact h2
  rw [scorePhase2_none _ _ hnf1 hnf2]
  rw [show (winCheckPhase (aiMovePhase e.ai_random (aiDelayPhase (playerMovePhase
      (wallPhase (moveBallPhase g)).1)))).ai.y =
      (aiMovePhase e.ai_random (aiDelayPhase (playerMovePhase
      (wallPhase (moveBallPhase g)).1))).ai.y from by simp]
  rw [aiMovePhase_y]
  unfold Rect.centery Rect.top Rect.bottom
  simp

/-- Horizontal velocity after a full `Rallying` call in which the ball
overlaps both paddles and the (flipped) movement keeps it in bounds:
exactly one sign flip. -/
theorem update_double_hit (e : Env) (g : GameScreen)
    (hs : g.serve = false) (hwt : g.wait_after_score = false)
    (hcp : g.ball.colliderect g.player = true)
    (hca : g.ball.colliderect g.ai = true)
    (hn1 : ¬ g.ball.x - g.ball_velocity.1 + g.ball.w < 0)
    (hn2 : ¬ g.ball.x - g.ball_velocity.1 > g.width) :
    (GameScreen.update_scene e g).1.ball_velocity.1 = -g.ball_velocity.1 := by
  have hcoll := collisionPhase_hit_player g hcp
  rw [update_rallying e g hs hwt, rallyPhase_fst, hcoll]
  dsimp only
  have h1 : ¬ (moveBallPhase { g with ball_velocity :=
      (-g.ball_velocity.1, g.ball_velocity.2) }).ball.right < 0 := by
    unfold Rect.right
    simp
    omega
  have h2 : ¬ (moveBallPhase { g with ball_velocity :=
      (-g.ball_velocity.1, g.ball_velocity.2) }).ball.left >
      (moveBallPhase { g with ball_velocity :=
      (-g.ball_velocity.1, g.ball_velocity.2) }).width := by
    unfold Rect.left
    simp
    omega
  rw [scorePhase1_none _ _ h1 h2]
  have hmid := midPhases_preserve e.ai_random (moveBallPhase { g with ball_velocity :=
      (-g.ball_velocity.1, g.ball_velocity.2) })
  have hnf1 : ¬ (aiMovePhase e.ai_random (aiDelayPhase (playerMovePhase
      (wallPhase (moveBallPhase { g with ball_velocity :=
      (-g.ball_velocity.1, g.ball_velocity.2) })).1))).ball.right < 0 := by
    rw [show (aiMovePhase e.ai_random (aiDelayPhase (playerMovePhase
      (wallPhase (moveBallPhase { g with ball_velocity :=
      (-g.ball_velocity.1, g.ball_velocity.2) })).1))).ball =
      (moveBallPhase { g with ball_velocity :=
      (-g.ball_velocity.1, g.ball_velocity.2) }).ball from hmid.1]
    exact h1
  have hnf2 : ¬ (aiMovePhase e.ai_random (aiDelayPhase (playerMovePhase
      (wallPhase (moveBallPhase { g with ball_velocity :=
      (-g.ball_velocity.1, g.ball_velocity.2) })).1))).ball.left >
      (aiMovePhase e.ai_random (aiDelayPhase (playerMovePhase
      (wallPhase (moveBallPhase { g with ball_velocity :=
      (-g.ball_velocity.1, g.ball_velocity.2) })).1))).width := by
    rw [show (aiMovePhase e.ai_random (aiDelayPhase (playerMovePhase
      (wallPhase (moveBallPhase { g with ball_velocity :=
      (-g.ball_velocity.1, g.ball_velocity.2) })).1))).ball =
      (moveBallPhase { g with ball_velocity :=
      (-g.ball_velocity.1, g.ball_velocity.2) }).ball from hmid.1,
      show (aiMovePhase e.ai_random (aiDelayPhase (playerMovePhase
      (wallPhase (moveBallPhase { g with ball_velocity :=
      (-g.ball_velocity.1, g.ball_velocity.2) })).1))).width =
      (moveBallPhase { g with ball_velocity :=
      (-g.ball_velocity.1, g.ball_velocity.2) }).width from hmid.2.1]
    exact h2
  rw [scorePhase2_none _ _ hnf1 hnf2]
  simp

/-- The key table of `GameScreen.process_event`. -/
theorem process_event_keys (k : Key) (g : GameScreen) :
    (GameScreen.process_event (Event.keyDown k) g).player_move_up
      = (if k = Key.w ∨ k = Key.up then true else g.player_move_up) ∧
    (GameScreen.process_event (Event.keyDown k) g).player_move_down
      = (if k = Key.s ∨ k = Key.down then true else g.player_move_down) ∧
    (GameScreen.process_event (Event.keyUp k) g).player_move_up
      = (if k = Key.w ∨ k = Key.up then false else g.player_move_up) ∧
    (GameScreen.process_event (Event.keyUp k) g).player_move_down
      = (if k = Key.s ∨ k = Key.down then false else g.player_move_down) := by
  cases k <;> simp [GameScreen.process_event]

/-! ### Claims -/

/-- C1: match termination is idempotent in effect.  First, on every state
reachable under the driver discipline (no update of an invalid scene),
the instant either score has reached 3 the scene is invalid: the
`update_scene` call that raises a score to 3 ends with the win check
setting `is_valid` to false.  Second, once invalid, any further driver
steps keep the scene invalid and leave both scores frozen.  Third, on a
`Rallying` frame in which the ball passes `right < 0` while the AI score
is 2, the call leaves the AI score at exactly 3 and `is_valid` false. -/
theorem C1_match_termination :
    (∀ (size : Int × Int) (ticks : Int) (g : GameScreen), Reach size ticks g →
      (3 ≤ g.player_score ∨ 3 ≤ g.ai_score) → g.is_valid = false) ∧
    (∀ a b : GameScreen, a.is_valid = false → Relation.ReflTransGen DStep a b →
      b.is_valid = false ∧ b.player_score = a.player_score ∧
      b.ai_score = a.ai_score) ∧
    (∀ (e : Env) (g : GameScreen), g.serve = false → g.wait_after_score = false →
      g.ball.colliderect g.player = false → g.ball.colliderect g.ai = false →
      g.ball.x + g.ball_velocity.1 + g.ball.w < 0 → 0 ≤ g.width → g.ball.w = 30 →
      g.ai_score = 2 →
      (GameScreen.update_scene e g).1.ai_score = 3 ∧
      (GameScreen.update_scene e g).1.is_valid = false) := by
  refine ⟨fun size ticks g h hsc => reach_score_invalid size ticks g h hsc,
    fun a b hv h => dsteps_frozen hv h, ?_⟩
  intro e g hs hwt hcp hca hout hW hbw ha
  obtain ⟨h1, _⟩ := update_ai_score_exit e g hs hwt hcp hca hout hW hbw
  have h3 : (GameScreen.update_scene e g).1.ai_score = 3 := by rw [h1, ha]
  refine ⟨h3, ?_⟩
  have hupd := update_rallying e g hs hwt
  rw [hupd] at h3 ⊢
  exact rally_win e g (Or.inr (by omega))

/-- Witness for C1 at concrete inputs: a reachable state with score 4 is
invalid; an invalidated state stays invalid and frozen under a driver
step sequence; the concrete match-point scenario yields AI score 3 and
invalidity. -/
theorem C1_match_termination_witness :
    gameWin.is_valid = false ∧
    (gameDead.is_valid = false ∧ gameDead.player_score = gameDead.player_score ∧
      gameDead.ai_score = gameDead.ai_score) ∧
    ((GameScreen.update_scene envC gameC1).1.ai_score = 3 ∧
      (GameScreen.update_scene envC gameC1).1.is_valid = false) :=
  ⟨C1_match_termination.1 (-100, 750) 0 gameWin
      (Reach.update envW2 (by decide) (by decide)
        (Reach.update envW1 (by decide) (by decide) Reach.init))
      (Or.inr (by decide)),
   C1_match_termination.2.1 gameDead gameDead (by decide) Relation.ReflTransGen.refl,
   C1_match_termination.2.2 envC gameC1 (by decide) (by decide) (by decide)
     (by decide) (by decide) (by decide) (by decide) (by decide)⟩

/-- C2: every scoring event increments exactly one score by 1, recenters
the ball, resets both paddles to their start positions, redraws the
velocity with magnitude 8 per axis and independently randomized signs,
and enters the post-score wait (`ScoredWaiting`).  The first three
conjuncts characterize the scoring block itself (AI scores on
`right < 0`, the player on `left > width`, nothing otherwise); the last
two show the effects survive to the end of the same `update_scene` call
(the player paddle stays at its start position provided no movement
intent is set — the AI paddle provably always does). -/
theorem C2_scoring_event :
    (∀ (e : Env) (g : GameScreen), e.Valid → g.ball.right < 0 →
      (scorePhase1 e g).1.ai_score = g.ai_score + 1 ∧
      (scorePhase1 e g).1.player_score = g.player_score ∧
      (scorePhase1 e g).1.ball.x = g.width / 2 - 15 ∧
      (scorePhase1 e g).1.ball.y = g.height / 2 - 15 ∧
      (scorePhase1 e g).1.ball_velocity = (8 * e.sign_x, 8 * e.sign_y) ∧
      VelOK (scorePhase1 e g).1 ∧
      (scorePhase1 e g).1.player.x = 30 ∧
      (scorePhase1 e g).1.player.y = g.height / 2 - 80 ∧
      (scorePhase1 e g).1.ai.x = g.width - 40 ∧
      (scorePhase1 e g).1.ai.y = g.height / 2 - 80 ∧
      (scorePhase1 e g).1.wait_after_score = true) ∧
    (∀ (e : Env) (g : GameScreen), e.Valid → ¬ g.ball.right < 0 →
      g.ball.left > g.width →
      (scorePhase1 e g).1.player_score = g.player_score + 1 ∧
      (scorePhase1 e g).1.ai_score = g.ai_score ∧
      (scorePhase1 e g).1.ball.x = g.width / 2 - 15 ∧
      (scorePhase1 e g).1.ball.y = g.height / 2 - 15 ∧
      (scorePhase1 e g).1.ball_velocity = (8 * e.sign_x, 8 * e.sign_y) ∧
      VelOK (scorePhase1 e g).1 ∧
      (scorePhase1 e g).1.player.x = 30 ∧
      (scorePhase1 e g).1.player.y = g.height / 2 - 80 ∧
      (scorePhase1 e g).1.ai.x = g.width - 40 ∧
      (scorePhase1 e g).1.ai.y = g.height / 2 - 80 ∧
      (scorePhase1 e g).1.wait_after_score = true) ∧
    (∀ (e : Env) (g : GameScreen), ¬ g.ball.right < 0 → ¬ g.ball.left > g.width →
      scorePhase1 e g = (g, [])) ∧
    (∀ (e : Env) (g : GameScreen),
      g.serve = false → g.wait_after_score = false →
      g.ball.colliderect g.player = false → g.ball.colliderect g.ai = false →
      g.ball.x + g.ball_velocity.1 + g.ball.w < 0 →
      0 ≤ g.width → g.ball.w = 30 → g.ball.h = 30 → g.ai.h = 180 →
      -40 ≤ e.ai_random → e.ai_random ≤ 40 → 32 ≤ g.height →
      (GameScreen.update_scene e g).1.ai_score = g.ai_score + 1 ∧
      (GameScreen.update_scene e g).1.player_score = g.player_score ∧
      (GameScreen.update_scene e g).1.ball.x = g.width / 2 - 15 ∧
      (GameScreen.update_scene e g).1.ball.y = g.height / 2 - 15 ∧
      (GameScreen.update_scene e g).1.ball_velocity = (8 * e.sign_x, 8 * e.sign_y) ∧
      (GameScreen.update_scene e g).1.wait_after_score = true ∧
      (GameScreen.update_scene e g).1.serve = false ∧
      (GameScreen.update_scene e g).1.ai.x = g.width - 40 ∧
      (GameScreen.update_scene e g).1.ai.y = g.height / 2 - 80 ∧
      (GameScreen.update_scene e g).1.player.x = 30 ∧
      (g.player_move_up = false → g.player_move_down = false →
        (GameScreen.update_scene e g).1.player.y = g.height / 2 - 80)) ∧
    (∀ (e : Env) (g : GameScreen),
      g.serve = false → g.wait_after_score = false →
      g.ball.colliderect g.player = false → g.ball.colliderect g.ai = false →
      g.ball.x + g.ball_velocity.1 > g.width →
      0 ≤ g.width → g.ball.w = 30 → g.ball.h = 30 → g.ai.h = 180 →
      -40 ≤ e.ai_random → e.ai_random ≤ 40 → 32 ≤ g.height →
      (GameScreen.update_scene e g).1.player_score = g.player_score + 1 ∧
      (GameScreen.update_scene e g).1.ai_score = g.ai_score ∧
      (GameScreen.update_scene e g).1.ball.x = g.width / 2 - 15 ∧
      (GameScreen.update_scene e g).1.ball.y = g.height / 2 - 15 ∧
      (GameScreen.update_scene e g).1.ball_velocity = (8 * e.sign_x, 8 * e.sign_y) ∧
      (GameScreen.update_scene e g).1.wait_after_score = true ∧
      (GameScreen.update_scene e g).1.serve = false ∧
      (GameScreen.update_scene e g).1.ai.x = g.width - 40 ∧
      (GameScreen.update_scene e g).1.ai.y = g.height / 2 - 80 ∧
      (GameScreen.update_scene e g).1.player.x = 30 ∧
      (g.player_move_up = false → g.player_move_down = false →
        (GameScreen.update_scene e g).1.player.y = g.height / 2 - 80)) := by
  refine ⟨?_, ?_, fun e g h1 h2 => scorePhase1_none e g h1 h2,
    fun e g hs hwt hcp hca hout hW hbw hbh haih hr1 hr2 hH =>
      update_exit_left_facts e g hs hwt hcp hca hout hW hbw hbh haih hr1 hr2 hH,
    fun e g hs hwt hcp hca hout hW hbw hbh haih hr1 hr2 hH =>
      update_exit_right_facts e g hs hwt hcp hca hout hW hbw hbh haih hr1 hr2 hH⟩
  · intro e g he h
    obtain ⟨hsx, hsy, _, _⟩ := he
    obtain ⟨c1, c2, c3, c4, c5, c6, c7, c8, c9, c10, _⟩ :=
      scorePhase1_ai_scores e g h
    refine ⟨c1, c2, c3, c4, c5, ?_, c6, c7, c8, c9, c10⟩
    unfold VelOK
    rw [c5]
    rcases hsx with hx | hx <;> rcases hsy with hy | hy <;> simp [hx, hy]
  · intro e g he h1 h2
    obtain ⟨hsx, hsy, _, _⟩ := he
    obtain ⟨c1, c2, c3, c4, c5, c6, c7, c8, c9, c10, _⟩ :=
      scorePhase1_player_scores e g h1 h2
    refine ⟨c1, c2, c3, c4, c5, ?_, c6, c7, c8, c9, c10⟩
    unfold VelOK
    rw [c5]
    rcases hsx with hx | hx <;> rcases hsy with hy | hy <;> simp [hx, hy]

/-- Witness for C2 at concrete inputs: the scoring block applied to a
ball past the left edge, and a full scoring frame from `gameC1`. -/
theorem C2_scoring_event_witness :
    ((scorePhase1 envC { gameStart with ball := ⟨-58, 368, 30, 30⟩ }).1.ai_score
        = { gameStart with ball := ⟨-58, 368, 30, 30⟩ }.ai_score + 1 ∧
      (scorePhase1 envC { gameStart with ball := ⟨-58, 368, 30, 30⟩ }).1.player_score
        = { gameStart with ball := ⟨-58, 368, 30, 30⟩ }.player_score ∧
      (scorePhase1 envC { gameStart with ball := ⟨-58, 368, 30, 30⟩ }).1.ball.x
        = { gameStart with ball := ⟨-58, 368, 30, 30⟩ }.width / 2 - 15 ∧
      (scorePhase1 envC { gameStart with ball := ⟨-58, 368, 30, 30⟩ }).1.ball.y
        = { gameStart with ball := ⟨-58, 368, 30, 30⟩ }.height / 2 - 15 ∧
      (scorePhase1 envC { gameStart with ball := ⟨-58, 368, 30, 30⟩ }).1.ball_velocity
        = (8 * envC.sign_x, 8 * envC.sign_y) ∧
      VelOK (scorePhase1 envC { gameStart with ball := ⟨-58, 368, 30, 30⟩ }).1 ∧
      (scorePhase1 envC { gameStart with ball := ⟨-58, 368, 30, 30⟩ }).1.player.x = 30 ∧
      (scorePhase1 envC { gameStart with ball := ⟨-58, 368, 30, 30⟩ }).1.player.y
        = { gameStart with ball := ⟨-58, 368, 30, 30⟩ }.height / 2 - 80 ∧
      (scorePhase1 envC { gameStart with ball := ⟨-58, 368, 30, 30⟩ }).1.ai.x
        = { gameStart with ball := ⟨-58, 368, 30, 30⟩ }.width - 40 ∧
      (scorePhase1 envC { gameStart with ball := ⟨-58, 368, 30, 30⟩ }).1.ai.y
        = { gameStart with ball := ⟨-58, 368, 30, 30⟩ }.height / 2 - 80 ∧
      (scorePhase1 envC { gameStart with ball := ⟨-58, 368, 30, 30⟩ }).1.wait_after_score
        = true) ∧
    ((GameScreen.update_scene envC gameC1).1.ai_score = gameC1.ai_score + 1 ∧
      (GameScreen.update_scene envC gameC1).1.player_score = gameC1.player_score ∧
      (GameScreen.update_scene envC gameC1).1.ball.x = gameC1.width / 2 - 15 ∧
      (GameScreen.update_scene envC gameC1).1.ball.y = gameC1.height / 2 - 15 ∧
      (GameScreen.update_scene envC gameC1).1.ball_velocity
        = (8 * envC.sign_x, 8 * envC.sign_y) ∧
      (GameScreen.update_scene envC gameC1).1.wait_after_score = true ∧
      (GameScreen.update_scene envC gameC1).1.serve = false ∧
      (GameScreen.update_scene envC gameC1).1.ai.x = gameC1.width - 40 ∧
      (GameScreen.update_scene envC gameC1).1.ai.y = gameC1.height / 2 - 80 ∧
      (GameScreen.update_scene envC gameC1).1.player.x = 30 ∧
      (gameC1.player_move_up = false → gameC1.player_move_down = false →
        (GameScreen.update_scene envC gameC1).1.player.y = gameC1.height / 2 - 80)) :=
  ⟨C2_scoring_event.1 envC { gameStart with ball := ⟨-58, 368, 30, 30⟩ }
      (by decide) (by decide),
   C2_scoring_event.2.2.2.1 envC gameC1 (by decide) (by decide) (by decide)
     (by decide) (by decide) (by decide) (by decide) (by decide) (by decide)
     (by decide) (by decide) (by decide)⟩

/-- C3 counterexample: a `Rallying` frame (`serve` and `wait_after_score`
false) on the 750-surface in which the player paddle, at `y = 5` with
upward intent, ends the `update_scene` call at `y = -7`, outside
`[0, surface_height - paddle_height] = [0, 570]` — the bound check
`top > 0` runs before the move by `player_speed = 12`. -/
theorem C3_paddle_bounds_counterexample :
    gameC3.serve = false ∧ gameC3.wait_after_score = false ∧
    gameC3.height - gameC3.player.h = 570 ∧
    (GameScreen.update_scene envC gameC3).1.player.y = -7 ∧
    ¬ (0 ≤ (GameScreen.update_scene envC gameC3).1.player.y) := by
  decide

/-- C3 (amended): paddles may overshoot the surface band by up to
`speed - 1` pixels, because each bound test precedes the move; within
that widened band they stay.  `BoundsInv` — fresh-construction sizes and
speeds, ±8 velocity, player top in `[-(12-1), height - 180 + (12-1)]`,
AI top in `[-(9-1), height - 180 + (9-1)]`, ball top in
`(-8, height - 30 + 8]` — holds initially (for surfaces at least 200
tall) and is preserved by every `update_scene` call and every event. -/
theorem C3_paddle_bounds_amended :
    (∀ (w h t : Int), 200 ≤ h → 0 ≤ w → BoundsInv (GameScreen.init (w, h) t)) ∧
    (∀ (e : Env) (g : GameScreen), e.Valid → BoundsInv g →
      BoundsInv (GameScreen.update_scene e g).1) ∧
    (∀ (ev : Event) (g : GameScreen), BoundsInv g →
      BoundsInv (GameScreen.process_event ev g)) ∧
    (∀ g : GameScreen, BoundsInv g →
      -(g.player_speed - 1) ≤ g.player.y ∧
      g.player.y ≤ g.height - g.player.h + (g.player_speed - 1) ∧
      -(g.ai_speed - 1) ≤ g.ai.y ∧
      g.ai.y ≤ g.height - g.ai.h + (g.ai_speed - 1) ∧
      -8 < g.ball.y ∧ g.ball.y + g.ball.h ≤ g.height + 8) := by
  refine ⟨init_boundsInv, update_boundsInv, process_event_boundsInv, ?_⟩
  intro g h
  unfold BoundsInv VelOK at h
  omega

/-- Witness for C3 (amended) at concrete inputs. -/
theorem C3_paddle_bounds_amended_witness :
    BoundsInv (GameScreen.init (750, 750) 0) ∧
    BoundsInv (GameScreen.update_scene envC gameStart).1 ∧
    BoundsInv (GameScreen.process_event Event.quit gameStart) ∧
    (-(gameStart.player_speed - 1) ≤ gameStart.player.y ∧
      gameStart.player.y ≤ gameStart.height - gameStart.player.h +
        (gameStart.player_speed - 1) ∧
      -(gameStart.ai_speed - 1) ≤ gameStart.ai.y ∧
      gameStart.ai.y ≤ gameStart.height - gameStart.ai.h + (gameStart.ai_speed - 1) ∧
      -8 < gameStart.ball.y ∧ gameStart.ball.y + gameStart.ball.h ≤ gameStart.height + 8) :=
  ⟨C3_paddle_bounds_amended.1 750 750 0 (by decide) (by decide),
   C3_paddle_bounds_amended.2.1 envC gameStart (by decide) (by decide),
   C3_paddle_bounds_amended.2.2.1 Event.quit gameStart (by decide),
   C3_paddle_bounds_amended.2.2.2 gameStart (by decide)⟩

/-- C4 counterexample: an `update_scene` call made with the scene in the
`Serving` state (`serve = true`, countdown already played and elapsed)
moves the ball — physics runs in the very call that leaves `Serving`,
so the ball position is not unchanged on every frame in which the scene
is in the `Serving` state. -/
theorem C4_serving_counterexample :
    gameC4.serve = true ∧
    (GameScreen.update_scene envC gameC4).1.ball.x ≠ gameC4.ball.x := by
  decide

/-- C4 (amended): the timing gates behave as specified on the frames that
stay in their state — on entry to `Serving` the countdown sound is
played exactly once (never again while the flag is set) and nothing else
changes; while the countdown has not elapsed, or while the 1000 ms
post-score delay (`round_delay`, set at construction and never changed)
has not elapsed, the call returns with the state untouched — but on the
call in which the countdown has elapsed the scene clears `serve` and
immediately runs a full physics step, and on the call in which the
post-score delay has elapsed the scene re-enters `Serving` with the
countdown-played flag reset and likewise runs a full physics step in
the same call. -/
theorem C4_serving_amended :
    (∀ (e : Env) (g : GameScreen), g.serve = true → g.countdown_played = false →
      0 < e.sound_len →
      GameScreen.update_scene e g =
        ({ g with countdown_start_time := e.now, countdown_played := true },
         [Sound.countdown])) ∧
    (∀ (e : Env) (g : GameScreen), g.serve = true → g.countdown_played = true →
      e.now - g.countdown_start_time < e.sound_len →
      GameScreen.update_scene e g = (g, [])) ∧
    (∀ (e : Env) (g : GameScreen), g.countdown_played = true →
      Sound.countdown ∉ (GameScreen.update_scene e g).2) ∧
    (∀ (e : Env) (g : GameScreen), g.serve = true → g.countdown_played = true →
      ¬ e.now - g.countdown_start_time < e.sound_len → g.wait_after_score = false →
      GameScreen.update_scene e g = rallyPhase e { g with serve := false }) ∧
    (∀ (e : Env) (g : GameScreen), g.serve = false → g.wait_after_score = true →
      e.now - g.score_time < g.round_delay →
      GameScreen.update_scene e g = (g, [])) ∧
    (∀ (e : Env) (g : GameScreen), g.serve = false → g.wait_after_score = true →
      ¬ e.now - g.score_time < g.round_delay →
      GameScreen.update_scene e g =
        rallyPhase e { g with wait_after_score := false, serve := true,
                              countdown_played := false }) ∧
    (∀ (e : Env) (g : GameScreen),
      (GameScreen.update_scene e g).1.round_delay = g.round_delay) ∧
    (∀ (size : Int × Int) (t : Int), (GameScreen.init size t).round_delay = 1000) :=
  ⟨update_serving_entry, update_serving_stay, update_no_countdown,
   update_serving_elapsed, update_wait_stay, update_wait_elapsed,
   update_round_delay, fun _ _ => rfl⟩

/-- Witness for C4 (amended) at concrete inputs: a fresh scene plays the
countdown once; a scene with the countdown pending stays put; no
countdown replays while the flag is set; the elapsed-countdown and
elapsed-delay calls run the physics step. -/
theorem C4_serving_amended_witness :
    (GameScreen.update_scene envC gameStart =
      ({ gameStart with countdown_start_time := envC.now, countdown_played := true },
       [Sound.countdown])) ∧
    (GameScreen.update_scene { envC with now := 500 } gameC4 = (gameC4, [])) ∧
    (Sound.countdown ∉ (GameScreen.update_scene envC gameC4).2) ∧
    (GameScreen.update_scene envC gameC4 = rallyPhase envC { gameC4 with serve := false }) ∧
    (GameScreen.update_scene { envC with now := 500 }
        { gameStart with serve := false, wait_after_score := true } =
      ({ gameStart with serve := false, wait_after_score := true }, [])) ∧
    (GameScreen.update_scene envC
        { gameStart with serve := false, wait_after_score := true } =
      rallyPhase envC { { gameStart with serve := false, wait_after_score := true } with
        wait_after_score := false, serve := true, countdown_played := false }) ∧
    ((GameScreen.update_scene envC gameStart).1.round_delay = gameStart.round_delay) ∧
    ((GameScreen.init (750, 750) 0).round_delay = 1000) :=
  ⟨C4_serving_amended.1 envC gameStart (by decide) (by decide) (by decide),
   C4_serving_amended.2.1 { envC with now := 500 } gameC4 (by decide) (by decide)
     (by decide),
   C4_serving_amended.2.2.1 envC gameC4 (by decide),
   C4_serving_amended.2.2.2.1 envC gameC4 (by decide) (by decide) (by decide)
     (by decide),
   C4_serving_amended.2.2.2.2.1 { envC with now := 500 }
     { gameStart with serve := false, wait_after_score := true } (by decide)
     (by decide) (by decide),
   C4_serving_amended.2.2.2.2.2.1 envC
     { gameStart with serve := false, wait_after_score := true } (by decide)
     (by decide) (by decide),
   C4_serving_amended.2.2.2.2.2.2.1 envC gameStart,
   C4_serving_amended.2.2.2.2.2.2.2 (750, 750) 0⟩

/-- C5 counterexample: neither an escape key-down nor a quit event
delivered to a `GameScreen` sets `is_valid` to false —
`GameScreen.process_event` overrides the base handler without calling
it, so the base quit/escape invalidation never runs for a `GameScreen`. -/
theorem C5_process_event_counterexample :
    (GameScreen.process_event (Event.keyDown Key.escape) gameStart).is_valid = true ∧
    (GameScreen.process_event Event.quit gameStart).is_valid = true := by
  decide

/-- C5 (amended): `GameScreen.process_event` sets the movement-intent
flags on key-down of W/Up (up) and S/Down (down), clears them on key-up,
and never changes validity or scores; because the override does not
delegate to the base handler, quit and escape events leave a
`GameScreen` valid, so a `GameScreen` only becomes invalid through the
win check.  The base `Scene.process_event` does invalidate on a quit
event or an escape key-down. -/
theorem C5_process_event_amended :
    (∀ (ev : Event) (g : GameScreen),
      (GameScreen.process_event ev g).is_valid = g.is_valid ∧
      (GameScreen.process_event ev g).player_score = g.player_score ∧
      (GameScreen.process_event ev g).ai_score = g.ai_score) ∧
    (∀ (k : Key) (g : GameScreen),
      (GameScreen.process_event (Event.keyDown k) g).player_move_up
        = (if k = Key.w ∨ k = Key.up then true else g.player_move_up) ∧
      (GameScreen.process_event (Event.keyDown k) g).player_move_down
        = (if k = Key.s ∨ k = Key.down then true else g.player_move_down) ∧
      (GameScreen.process_event (Event.keyUp k) g).player_move_up
        = (if k = Key.w ∨ k = Key.up then false else g.player_move_up) ∧
      (GameScreen.process_event (Event.keyUp k) g).player_move_down
        = (if k = Key.s ∨ k = Key.down then false else g.player_move_down)) ∧
    (∀ sc : Scene, (Scene.process_event Event.quit sc).is_valid = false) ∧
    (∀ sc : Scene,
      (Scene.process_event (Event.keyDown Key.escape) sc).is_valid = false) := by
  refine ⟨?_, process_event_keys, fun sc => rfl, fun sc => rfl⟩
  intro ev g
  have hf := process_event_frame ev g
  exact ⟨hf.2.2.1, hf.2.2.2.2.2.2.2.2.2.2.1, hf.2.2.2.2.2.2.2.2.2.2.2.1⟩

/-- C6 counterexample: the code's AI rule and the claim's single-target
rule disagree.  From `gameC6` the moved ball has vertical center 455,
the AI paddle center 385 and bottom 475 < 750: the claimed jittered
target (jitter 0) differs from the AI center by 70 > 60 with room to
move, so under the claim the paddle moves down by 9, yet the call leaves
it in place — the downward test in the source uses `ball.y`, not the
center. -/
theorem C6_ai_target_counterexample :
    (moveBallPhase gameC6).ball.centery + envC.ai_random
      - (moveBallPhase gameC6).ai.centery = 70 ∧
    (moveBallPhase gameC6).ai.bottom < (moveBallPhase gameC6).height ∧
    (aiMoveSpec envC.ai_random (moveBallPhase gameC6)).ai.y = gameC6.ai.y + 9 ∧
    gameC6.serve = false ∧ gameC6.wait_after_score = false ∧
    (GameScreen.update_scene envC gameC6).1.ai.y = gameC6.ai.y := by
  decide

/-- C6 (amended): the AI movement decision uses two different jittered
ball ordinates, not one target — the upward test compares the ball's
vertical center plus the jitter, the downward test the ball's top edge
(`ball.y`) plus the jitter — each against the AI paddle center with the
60 px dead zone, moving by `ai_speed` under the edge guards and
otherwise standing still; this is what a full `Rallying` call without
paddle contact or scoring does to the AI paddle. -/
theorem C6_ai_target_amended :
    (∀ (r : Int) (g : GameScreen),
      (aiMovePhase r g).ai.y =
        if g.ball.centery + r < g.ai.centery - 60 ∧ 0 < g.ai.top
        then g.ai.y - g.ai_speed
        else if g.ball.y + r > g.ai.centery + 60 ∧ g.ai.bottom < g.height
        then g.ai.y + g.ai_speed
        else g.ai.y) ∧
    (∀ (e : Env) (g : GameScreen),
      g.serve = false → g.wait_after_score = false →
      g.ball.colliderect g.player = false → g.ball.colliderect g.ai = false →
      ¬ g.ball.x + g.ball_velocity.1 + g.ball.w < 0 →
      ¬ g.ball.x + g.ball_velocity.1 > g.width →
      (GameScreen.update_scene e g).1.ai.y =
        (if g.ball.y + g.ball_velocity.2 + g.ball.h / 2 + e.ai_random
              < g.ai.centery - 60 ∧ 0 < g.ai.top
         then g.ai.y - g.ai_speed
         else if g.ball.y + g.ball_velocity.2 + e.ai_random
              > g.ai.centery + 60 ∧ g.ai.bottom < g.height
         then g.ai.y + g.ai_speed
         else g.ai.y)) :=
  ⟨aiMovePhase_y, update_ai_rule⟩

/-- Witness for C6 (amended): the full-call rule evaluated at `gameC6`. -/
theorem C6_ai_target_amended_witness :
    (GameScreen.update_scene envC gameC6).1.ai.y =
      (if gameC6.ball.y + gameC6.ball_velocity.2 + gameC6.ball.h / 2 + envC.ai_random
            < gameC6.ai.centery - 60 ∧ 0 < gameC6.ai.top
       then gameC6.ai.y - gameC6.ai_speed
       else if gameC6.ball.y + gameC6.ball_velocity.2 + envC.ai_random
            > gameC6.ai.centery + 60 ∧ gameC6.ai.bottom < gameC6.height
       then gameC6.ai.y + gameC6.ai_speed
       else gameC6.ai.y) :=
  C6_ai_target_amended.2 envC gameC6 (by decide) (by decide) (by decide)
    (by decide) (by decide) (by decide)

/-- C7: the ball-vs-paddle check tests the player paddle first and is
`elif`-chained, so at most one horizontal flip per frame comes from
paddle contact: when the ball overlaps the player paddle the flip and
paddle sound happen regardless of the AI paddle; the AI branch runs only
otherwise; with no overlap nothing happens; in particular a ball
overlapping both paddles flips exactly once, and a full `Rallying` call
on such a frame (with the flipped ball staying in bounds) ends with the
horizontal velocity exactly negated. -/
theorem C7_paddle_check_order :
    (∀ g : GameScreen, g.ball.colliderect g.player = true →
      collisionPhase g =
        ({ g with ball_velocity := (-g.ball_velocity.1, g.ball_velocity.2) },
         [Sound.paddle])) ∧
    (∀ g : GameScreen, g.ball.colliderect g.player = false →
      g.ball.colliderect g.ai = true →
      collisionPhase g =
        ({ g with ball_velocity := (-g.ball_velocity.1, g.ball_velocity.2) },
         [Sound.paddle])) ∧
    (∀ g : GameScreen, g.ball.colliderect g.player = false →
      g.ball.colliderect g.ai = false → collisionPhase g = (g, [])) ∧
    (∀ g : GameScreen, g.ball.colliderect g.player = true →
      g.ball.colliderect g.ai = true →
      (collisionPhase g).1.ball_velocity.1 = -g.ball_velocity.1 ∧
      (collisionPhase g).2 = [Sound.paddle]) ∧
    (∀ (e : Env) (g : GameScreen),
      g.serve = false → g.wait_after_score = false →
      g.ball.colliderect g.player = true → g.ball.colliderect g.ai = true →
      ¬ g.ball.x - g.ball_velocity.1 + g.ball.w < 0 →
      ¬ g.ball.x - g.ball_velocity.1 > g.width →
      (GameScreen.update_scene e g).1.ball_velocity.1 = -g.ball_velocity.1) :=
  ⟨collisionPhase_hit_player, collisionPhase_hit_ai, collisionPhase_none,
   fun g hp _ => ⟨by rw [collisionPhase_hit_player g hp],
     by rw [collisionPhase_hit_player g hp]⟩,
   update_double_hit⟩

/-- Witness for C7 at concrete inputs: `gameC7` has the ball overlapping
both paddles; the collision phase flips once and a full call negates the
horizontal velocity. -/
theorem C7_paddle_check_order_witness :
    (collisionPhase gameC7 =
      ({ gameC7 with ball_velocity := (-gameC7.ball_velocity.1, gameC7.ball_velocity.2) },
       [Sound.paddle])) ∧
    (collisionPhase { gameStart with ball := ⟨690, 360, 30, 30⟩ } =
      ({ { gameStart with ball := ⟨690, 360, 30, 30⟩ } with
          ball_velocity := (-{ gameStart with ball := ⟨690, 360, 30, 30⟩ }.ball_velocity.1,
            { gameStart with ball := ⟨690, 360, 30, 30⟩ }.ball_velocity.2) },
       [Sound.paddle])) ∧
    (collisionPhase gameStart = (gameStart, [])) ∧
    ((collisionPhase gameC7).1.ball_velocity.1 = -gameC7.ball_velocity.1 ∧
      (collisionPhase gameC7).2 = [Sound.paddle]) ∧
    ((GameScreen.update_scene envC gameC7).1.ball_velocity.1
      = -gameC7.ball_velocity.1) :=
  ⟨C7_paddle_check_order.1 gameC7 (by decide),
   C7_paddle_check_order.2.1 { gameStart with ball := ⟨690, 360, 30, 30⟩ }
     (by decide) (by decide),
   C7_paddle_check_order.2.2.1 gameStart (by decide) (by decide),
   C7_paddle_check_order.2.2.2.1 gameC7 (by decide) (by decide),
   C7_paddle_check_order.2.2.2.2 envC gameC7 (by decide) (by decide) (by decide)
     (by decide) (by decide) (by decide)⟩

/-- C8: in every state reachable from a fresh `GameScreen` under the
driver discipline, each component of the ball velocity is exactly +8 or
-8: the constructor sets (8, 8), collisions only negate one component,
and every reset assigns magnitude 8 with a random sign per axis. -/
theorem C8_velocity_pm8 :
    ∀ (size : Int × Int) (ticks : Int) (g : GameScreen), Reach size ticks g →
      (g.ball_velocity.1 = 8 ∨ g.ball_velocity.1 = -8) ∧
      (g.ball_velocity.2 = 8 ∨ g.ball_velocity.2 = -8) := by
  intro size ticks g h
  have hv : VelOK g := by
    induction h with
    | init =>
        unfold VelOK GameScreen.init
        simp
    | update e hve hval h ih => exact update_velOK e _ hve ih
    | event ev h ih => exact process_event_velOK ev _ ih
  exact ⟨hv.1, hv.2⟩

/-- Witness for C8: the invariant at a state reached by two update
calls. -/
theorem C8_velocity_pm8_witness :
    (gameWin.ball_velocity.1 = 8 ∨ gameWin.ball_velocity.1 = -8) ∧
    (gameWin.ball_velocity.2 = 8 ∨ gameWin.ball_velocity.2 = -8) :=
  C8_velocity_pm8 (-100, 750) 0 gameWin
    (Reach.update envW2 (by decide) (by decide)
      (Reach.update envW1 (by decide) (by decide) Reach.init))

/-- C9: for every scene with a non-empty soundtrack, `start_scene`
aborts with the fatal `SystemExit` (`Except.error "broken!!"`, after
printing the pygame error) exactly when loading the asset fails — the
failure is never caught or retried — and on success it issues the load,
the volume set and the looped play of the track. -/
theorem C9_soundtrack_fatal :
    ∀ (sc : Scene) (ok : Bool), sc.soundtrack ≠ "" →
      ((Scene.start_scene ok sc = Except.error "broken!!") ↔ ok = false) ∧
      (ok = true → Scene.start_scene ok sc =
        Except.ok [MusicAction.load sc.soundtrack, MusicAction.setVolume,
          MusicAction.playLoop]) := by
  intro sc ok h
  unfold Scene.start_scene
  cases ok <;> simp [h]

/-- Witness for C9 at a concrete scene with the default soundtrack, for
both outcomes of the load. -/
theorem C9_soundtrack_fatal_witness :
    ((Scene.start_scene false ⟨true, "assets/sounds/gameplay.mp3", 60⟩
        = Except.error "broken!!") ↔ false = false) ∧
    ((Scene.start_scene true ⟨true, "assets/sounds/gameplay.mp3", 60⟩
        = Except.error "broken!!") ↔ true = false) :=
  ⟨(C9_soundtrack_fatal ⟨true, "assets/sounds/gameplay.mp3", 60⟩ false
      (by decide)).1,
   (C9_soundtrack_fatal ⟨true, "assets/sounds/gameplay.mp3", 60⟩ true
      (by decide)).1⟩

/-- C10: over one `update_scene` call neither score decreases and the
sum of the scores grows by at most one — the second out-of-bounds check
cannot fire in the same call as the first, because the first recenters
the ball and the ball does not move between the two checks. -/
theorem C10_score_monotone :
    ∀ (e : Env) (g : GameScreen), 0 ≤ g.width → g.ball.w = 30 →
      g.player_score ≤ (GameScreen.update_scene e g).1.player_score ∧
      g.ai_score ≤ (GameScreen.update_scene e g).1.ai_score ∧
      (GameScreen.update_scene e g).1.player_score +
        (GameScreen.update_scene e g).1.ai_score
        ≤ g.player_score + g.ai_score + 1 :=
  fun e g hw hbw => update_scores e g hw hbw

/-- Witness for C10 at a concrete scoring frame. -/
theorem C10_score_monotone_witness :
    gameC1.player_score ≤ (GameScreen.update_scene envC gameC1).1.player_score ∧
    gameC1.ai_score ≤ (GameScreen.update_scene envC gameC1).1.ai_score ∧
    (GameScreen.update_scene envC gameC1).1.player_score +
      (GameScreen.update_scene envC gameC1).1.ai_score
      ≤ gameC1.player_score + gameC1.ai_score + 1 :=
  C10_score_monotone envC gameC1 (by decide) (by decide)
